import Mathlib

/-!
Verification of the Submission & Engagement Core of the rattlers repository.

The definitions below are shallow embeddings of the Python source files:
  * backend/layers/common/python/db.py            (table helpers, counter ops)
  * backend/functions/locations/check_duplicate.py (duplicate detector)
  * backend/functions/suggestions/submit_suggestion.py
  * backend/functions/suggestions/approve_suggestion.py
  * backend/functions/suggestions/reject_suggestion.py
  * backend/functions/feedback/toggle_favorite.py
  * backend/functions/feedback/submit_feedback.py
  * backend/functions/routes/route_feedback.py
  * backend/functions/photos/analyze_photo.py     (tag dedup)

DynamoDB tables are modelled as lists of items (a scan walks the list, a
get-by-key is a find on the key fields); S3 is a list of present object keys.
Numbers held in counter attributes are modelled as Int (an absent attribute
behaves exactly like 0 under both of the operations used on counters:
`if_not_exists(c, 0) + 1` and the guarded decrement, so absence is identified
with 0).  Machine floats for coordinates are modelled as rationals; Python's
`round(x, 4)` rounds half to even, which the embedding reproduces exactly
(no input considered here sits on a tie).
-/

namespace Rattlers

/-- Counter Store increment: `SET c = if_not_exists(c, :zero) + :inc`
(db.py, LocationsTable.increment_like_count and the analogous methods). -/
def incCounter (v : Int) : Int := v + 1

/-- Counter Store decrement: `SET c = c - :dec` guarded by the condition
expression `c > :zero`; on ConditionalCheckFailedException the operation is a
no-op (db.py, LocationsTable.decrement_like_count, RoutesTable.decrement_like_count). -/
def decCounter (v : Int) : Int := if 0 < v then v - 1 else v

/-- A single Counter Store call on one field. -/
inductive CounterOp
  | inc
  | dec
deriving Repr, DecidableEq

/-- Apply one counter operation. -/
def applyCounterOp (v : Int) : CounterOp → Int
  | CounterOp.inc => incCounter v
  | CounterOp.dec => decCounter v

/-- Apply a sequence of counter operations in order. -/
def applyCounterOps (v : Int) (ops : List CounterOp) : Int :=
  ops.foldl applyCounterOp v

/-- Python `str.lower()` (ASCII; every string in the system is ASCII). -/
def pyLower (s : String) : String :=
  ⟨s.data.map Char.toLower⟩

/-- Python `str.strip()`: drop leading and trailing whitespace. -/
def pyStrip (s : String) : String :=
  ⟨(((s.data.dropWhile Char.isWhitespace).reverse).dropWhile Char.isWhitespace).reverse⟩

/-- Python slicing `s[:n]`, counting code points. -/
def pyTake (s : String) (n : Nat) : String :=
  ⟨s.data.take n⟩

/-- Python `any(pred(c) for c in s)`. -/
def pyAnyChar (s : String) (p : Char → Bool) : Bool :=
  s.data.any p

/-- Python `s.startswith(pre)`. -/
def strStartsWith (s pre : String) : Bool :=
  pre.data.isPrefixOf s.data

/-- Helper for `pySplitWs`: accumulate maximal non-whitespace runs. -/
def wordsAux : List Char → List Char → List (List Char)
  | [], acc => if acc = [] then [] else [acc.reverse]
  | c :: cs, acc =>
      if c.isWhitespace then
        if acc = [] then wordsAux cs [] else acc.reverse :: wordsAux cs []
      else wordsAux cs (c :: acc)

/-- Python `s.split()`: split on runs of whitespace, dropping empty pieces. -/
def pySplitWs (s : String) : List String :=
  (wordsAux s.data []).map (fun w => (⟨w⟩ : String))

/-- Python `sep.join(ws)` for a one-character space separator. -/
def joinSpace : List String → String
  | [] => ""
  | [w] => w
  | w :: ws => w ++ " " ++ joinSpace ws

/-- `normalize_address` (check_duplicate.py / submit_suggestion.py):
lowercase, strip, collapse internal whitespace. -/
def normalizeAddress (address : String) : String :=
  joinSpace (pySplitWs (pyLower address))

/-- Round a rational to the nearest integer, ties to even — the rounding of
Python's builtin `round`. -/
def roundHalfEven (q : ℚ) : ℤ :=
  let f := ⌊q⌋
  let r := q - (f : ℚ)
  if r < 1/2 then f
  else if 1/2 < r then f + 1
  else if f % 2 = 0 then f else f + 1

/-- `round_coordinate(coord, 4)` (check_duplicate.py / submit_suggestion.py):
round to 4 decimal places. -/
def roundCoordinate (q : ℚ) : ℚ :=
  (roundHalfEven (q * 10000) : ℚ) / 10000

/-- Helper for `splitSlash`. -/
def splitSlashAux : List Char → List Char → List (List Char)
  | [], acc => [acc.reverse]
  | c :: cs, acc =>
      if c = '/' then acc.reverse :: splitSlashAux cs [] else splitSlashAux cs (c :: acc)

/-- Python `key.split("/")`. -/
def splitSlash (key : String) : List String :=
  (splitSlashAux key.data []).map (fun w => (⟨w⟩ : String))

/-- Last `/`-separated component of a key: Python `key.split("/")[-1]`. -/
def lastComponent (key : String) : String :=
  ((splitSlash key).reverse).headD ""

/-- A Location item (`PK = location#id`, `SK = "metadata"`).  Attributes that
Python reads with a falsy default (absent string attribute, absent list,
absent counter) are modelled by that default, since every use in the sources
is through `item.get(..., default)` or a truthiness test. -/
structure Location where
  id : String
  address : String := ""
  lat : ℚ := 0
  lng : ℚ := 0
  status : String := "active"
  description : String := ""
  photos : List String := []
  decorations : List String := []
  aiDescription : String := ""
  displayQuality : String := ""
  photoSubmittedBy : String := ""
  createdBy : String := ""
  createdByUsername : String := ""
  createdAt : String := ""
  updatedAt : String := ""
  likeCount : Int := 0
  saveCount : Int := 0
  reportCount : Int := 0
  feedbackCount : Int := 0
  viewCount : Int := 0
  averageRating : ℚ := 0
deriving Repr, DecidableEq

/-- A Suggestion item (`PK = SUGGESTION#id`, `SK = "METADATA"`). -/
structure Suggestion where
  id : String
  type : String := "new_location"
  status : String := "pending"
  address : String := ""
  description : String := ""
  lat : ℚ := 0
  lng : ℚ := 0
  photos : List String := []
  targetLocationId : String := ""
  targetAddress : String := ""
  detectedTags : List String := []
  aiDescription : String := ""
  displayQuality : String := ""
  flaggedForReview : Bool := false
  submittedBy : String := ""
  submittedByEmail : String := ""
  createdAt : String := ""
  reviewedBy : String := ""
  reviewedAt : String := ""
  rejectionReason : String := ""
  locationId : String := ""
deriving Repr, DecidableEq

/-- get-by-key on the Locations table (db.py LocationsTable.get /
`locations_table.get_item` with `PK = location#id, SK = metadata`). -/
def locGet (locs : List Location) (id : String) : Option Location :=
  locs.find? (fun l => l.id == id)

/-- `update_item` on one Location.  DynamoDB would upsert a bare item when the
key is absent; every caller in the sources has already checked existence, so
the absent case is a no-op here. -/
def locModify (locs : List Location) (id : String) (f : Location → Location) :
    List Location :=
  locs.map (fun l => if l.id == id then f l else l)

/-- `put_item` on the Locations table: replace any item with the same key. -/
def locPut (locs : List Location) (l : Location) : List Location :=
  (locs.filter (fun m => m.id ≠ l.id)) ++ [l]

/-- LocationsTable.increment_like_count (db.py). -/
def locIncLikeCount (locs : List Location) (id : String) : List Location :=
  locModify locs id (fun l => { l with likeCount := incCounter l.likeCount })

/-- LocationsTable.decrement_like_count (db.py): conditional on `likeCount > 0`. -/
def locDecLikeCount (locs : List Location) (id : String) : List Location :=
  locModify locs id (fun l => { l with likeCount := decCounter l.likeCount })

/-- get-by-key on the Suggestions table (query on `PK = suggestion#id`). -/
def sgGet (sugs : List Suggestion) (id : String) : Option Suggestion :=
  sugs.find? (fun s => s.id == id)

/-- `update_item` on one Suggestion (no-op when absent, see `locModify`). -/
def sgModify (sugs : List Suggestion) (id : String) (f : Suggestion → Suggestion) :
    List Suggestion :=
  sugs.map (fun s => if s.id == id then f s else s)

/-- `put_item` on the Suggestions table. -/
def sgPut (sugs : List Suggestion) (s : Suggestion) : List Suggestion :=
  (sugs.filter (fun t => t.id ≠ s.id)) ++ [s]

/-- One active-Location scan step of `check_locations_table`
(check_duplicate.py): coordinate match first, then nonempty-address match. -/
def locationDupMatch (latR lngR : ℚ) (addrN : String) (l : Location) : Bool :=
  (roundCoordinate l.lat == latR && roundCoordinate l.lng == lngR)
  || (normalizeAddress l.address != "" && normalizeAddress l.address == addrN)

/-- `check_locations_table` (check_duplicate.py): scan items with
`SK = metadata AND status = active`, return the first item whose rounded
coordinates or nonempty normalized address match. -/
def checkLocationsTable (locs : List Location) (latR lngR : ℚ) (addrN : String) :
    Option Location :=
  (locs.filter (fun l => l.status == "active")).find? (locationDupMatch latR lngR addrN)

/-- `check_suggestions_table` (check_duplicate.py): scan pending new_location
suggestions for the same two match conditions. -/
def checkSuggestionsTable (sugs : List Suggestion) (latR lngR : ℚ) (addrN : String) :
    Bool :=
  (sugs.filter (fun s => s.status == "pending" && s.type == "new_location")).any
    (fun s =>
      (roundCoordinate s.lat == latR && roundCoordinate s.lng == lngR)
      || (normalizeAddress s.address != "" && normalizeAddress s.address == addrN))

/-- `check_for_duplicate` (submit_suggestion.py): the same two scans, with the
messages the handler returns. -/
def checkForDuplicate (locs : List Location) (sugs : List Suggestion)
    (lat lng : ℚ) (address : String) : Bool × String :=
  let latR := roundCoordinate lat
  let lngR := roundCoordinate lng
  let addrN := normalizeAddress address
  match (locs.filter (fun l => l.status == "active")).findSome?
      (fun l =>
        if roundCoordinate l.lat == latR && roundCoordinate l.lng == lngR then
          some "This location already exists on the map"
        else if normalizeAddress l.address != "" && normalizeAddress l.address == addrN then
          some "This address already exists on the map"
        else none) with
  | some msg => (true, msg)
  | none =>
  match (sugs.filter (fun s => s.status == "pending" && s.type == "new_location")).findSome?
      (fun s =>
        if roundCoordinate s.lat == latR && roundCoordinate s.lng == lngR then
          some "This location has already been submitted and is pending review"
        else if normalizeAddress s.address != "" && normalizeAddress s.address == addrN then
          some "This address has already been submitted and is pending review"
        else none) with
  | some msg => (true, msg)
  | none => (false, "")

/-- The observable part of a handler's HTTP response: status code, the
`success` flag of the JSON body, the `message`, and the data fields the
engagement and moderation handlers put in `data`. -/
structure Resp where
  statusCode : Nat
  success : Bool
  message : String := ""
  liked : Option Bool := none
  saved : Option Bool := none
  favorited : Option Bool := none
  dataId : Option String := none
  locationId : Option String := none
deriving Repr, DecidableEq

/-- `validate_address_format` (submit_suggestion.py).  Returns
`(is_valid, error_message)`; character classes are read as ASCII, which is
what every address in the system uses. -/
def validateAddressFormat (address : String) : Bool × String :=
  if address = "" then (false, "Address is required")
  else
    let parts := pySplitWs (pyStrip address)
    if parts.length < 2 then
      (false, "Address must include street number and street name")
    else
      let firstPart := parts.headD ""
      if !(pyAnyChar firstPart Char.isDigit) then
        (false, "Address must start with a street number")
      else
        let remaining := joinSpace (parts.drop 1)
        if remaining.length < 2 then (false, "Address must include street name")
        else if !(pyAnyChar remaining Char.isAlpha) then
          (false, "Address must include street name")
        else (true, "")

/-- Moderation-side persistent state: the Suggestions table, the Locations
table, and the photo bucket as the list of object keys currently present. -/
structure ModState where
  suggestions : List Suggestion
  locations : List Location
  blobs : List String
deriving Repr, DecidableEq

/-- `handle_photo_update` (submit_suggestion.py): validate, require the target
Location to exist with no photos and no pending photo_update by the same user,
then write the pending Suggestion.  `freshId`/`now` stand for the generated
uuid and timestamp. -/
def handlePhotoUpdateSubmit (st : ModState) (userId userEmail targetLocationId : String)
    (photos : List String) (freshId now : String) : ModState × Resp :=
  if targetLocationId = "" then
    (st, { statusCode := 400, success := false,
           message := "Target location ID is required for photo updates" })
  else if photos = [] then
    (st, { statusCode := 400, success := false,
           message := "At least one photo is required" })
  else if 3 < photos.length then
    (st, { statusCode := 400, success := false, message := "Maximum 3 photos allowed" })
  else
    match locGet st.locations targetLocationId with
    | none =>
        (st, { statusCode := 404, success := false, message := "Target location not found" })
    | some loc =>
        if loc.photos ≠ [] then
          (st, { statusCode := 400, success := false,
                 message := "This location already has photos" })
        else if st.suggestions.any (fun s =>
            s.type == "photo_update" && s.targetLocationId == targetLocationId
              && s.submittedBy == userId && s.status == "pending") then
          (st, { statusCode := 400, success := false,
                 message := "You already have a pending photo submission for this location" })
        else
          let item : Suggestion :=
            { id := freshId, type := "photo_update",
              targetLocationId := targetLocationId, targetAddress := loc.address,
              photos := photos, status := "pending", submittedBy := userId,
              submittedByEmail := userEmail, createdAt := now }
          ({ st with suggestions := sgPut st.suggestions item },
           { statusCode := 201, success := true, dataId := some freshId,
             message := "Photo submission received and pending approval" })

/-- `handler` (submit_suggestion.py): the submitEntry operation.  `lat`/`lng`
are `none` when the body field is missing.  The async photo-analysis trigger
has no effect on the stores modelled here. -/
def submitSuggestion (st : ModState) (userId userEmail : String)
    (suggType : String) (targetLocationId : String) (address description : String)
    (lat lng : Option ℚ) (photos : List String) (freshId now : String) :
    ModState × Resp :=
  if userId = "" then
    (st, { statusCode := 401, success := false, message := "Unauthorized" })
  else if suggType == "photo_update" then
    handlePhotoUpdateSubmit st userId userEmail targetLocationId photos freshId now
  else
    let address := pyStrip address
    let description := pyStrip description
    if address = "" then
      (st, { statusCode := 400, success := false, message := "Address is required" })
    else if description.length < 20 then
      (st, { statusCode := 400, success := false,
             message := "Description must be at least 20 characters" })
    else
      match lat, lng with
      | none, _ | _, none =>
          (st, { statusCode := 400, success := false,
                 message := "Coordinates (lat/lng) are required" })
      | some la, some ln =>
          let va := validateAddressFormat address
          if !va.1 then
            (st, { statusCode := 400, success := false, message := va.2 })
          else
            let dup := checkForDuplicate st.locations st.suggestions la ln address
            if dup.1 then
              (st, { statusCode := 409, success := false, message := dup.2 })
            else
              let item : Suggestion :=
                { id := freshId, type := "new_location", address := address,
                  description := description, lat := la, lng := ln,
                  photos := photos, status := "pending", submittedBy := userId,
                  submittedByEmail := userEmail, createdAt := now }
              ({ st with suggestions := sgPut st.suggestions item },
               { statusCode := 201, success := true, dataId := some freshId,
                 message := "Suggestion submitted successfully" })

/-- The CDN URL an approved photo gets (approve_suggestion.py): the CDN path
when a CDN is configured, otherwise the raw S3 URL. -/
def approvedPhotoUrl (cdnUrl bucket locId filename : String) : String :=
  if cdnUrl ≠ "" then cdnUrl ++ "/" ++ locId ++ "/" ++ filename
  else "https://" ++ bucket ++ ".s3.amazonaws.com/approved/" ++ locId ++ "/" ++ filename

/-- One iteration of the staged-photo move loop (approve_suggestion.py):
for a key under `pending/`, copy it to `approved/{locId}/{filename}`, delete
the staged copy, and record the URL.  A copy of an absent key raises
ClientError, which the per-photo `except` swallows — that photo is skipped. -/
def movePhotoStep (locId cdnUrl bucket : String)
    (acc : List String × List String) (photoKey : String) :
    List String × List String :=
  let blobs := acc.1
  let urls := acc.2
  if photoKey ≠ "" && strStartsWith photoKey "pending/" then
    if photoKey ∈ blobs then
      let filename := lastComponent photoKey
      let approvedKey := "approved/" ++ locId ++ "/" ++ filename
      let blobs := (blobs.filter (fun k => k ≠ photoKey)) ++
        (if approvedKey ∈ blobs.filter (fun k => k ≠ photoKey) then [] else [approvedKey])
      (blobs, urls ++ [approvedPhotoUrl cdnUrl bucket locId filename])
    else (blobs, urls)
  else (blobs, urls)

/-- The whole staged-photo move loop: fold over the Suggestion's photo list,
returning the bucket contents and the collected URLs. -/
def movePhotos (locId cdnUrl bucket : String) (blobs : List String)
    (photos : List String) : List String × List String :=
  photos.foldl (movePhotoStep locId cdnUrl bucket) (blobs, [])

/-- `handle_photo_update_approval` (approve_suggestion.py): require the target
Location to exist, move staged photos under its id, then overwrite the
Location's `photos` (and, when the Suggestion carries them, `decorations`,
`aiDescription`, `displayQuality`, `photoSubmittedBy`) and mark the Suggestion
approved. -/
def handlePhotoUpdateApproval (st : ModState) (sug : Suggestion)
    (adminId now cdnUrl bucket : String) : ModState × Resp :=
  let target := sug.targetLocationId
  if target = "" then
    (st, { statusCode := 400, success := false,
           message := "Photo update missing target location ID" })
  else
    match locGet st.locations target with
    | none =>
        (st, { statusCode := 404, success := false, message := "Target location not found" })
    | some _ =>
        let moved := movePhotos target cdnUrl bucket st.blobs sug.photos
        let locs := locModify st.locations target (fun loc =>
          { loc with
            photos := moved.2, updatedAt := now,
            decorations := if sug.detectedTags ≠ [] then sug.detectedTags else loc.decorations,
            aiDescription := if sug.aiDescription ≠ "" then sug.aiDescription else loc.aiDescription,
            displayQuality := if sug.displayQuality ≠ "" then sug.displayQuality else loc.displayQuality,
            photoSubmittedBy := if sug.submittedBy ≠ "" then sug.submittedBy else loc.photoSubmittedBy })
        let sugs := sgModify st.suggestions sug.id (fun s =>
          { s with status := "approved", reviewedAt := now, reviewedBy := adminId })
        ({ suggestions := sugs, locations := locs, blobs := moved.1 },
         { statusCode := 200, success := true, message := "Photo update approved",
           locationId := some target })

/-- `handler` (approve_suggestion.py): the approve operation.  `newLocId` is
the uuid allocated for a new Location; `username` is what the Users-table
lookup returns for the submitter (empty when absent). -/
def approveSuggestion (st : ModState) (suggestionId adminId now newLocId : String)
    (cdnUrl bucket username : String) : ModState × Resp :=
  if suggestionId = "" then
    (st, { statusCode := 400, success := false, message := "Suggestion ID required" })
  else
    match sgGet st.suggestions suggestionId with
    | none =>
        (st, { statusCode := 404, success := false, message := "Suggestion not found" })
    | some sug =>
        if sug.status ≠ "pending" then
          (st, { statusCode := 400, success := false,
                 message := "Suggestion already processed" })
        else if sug.type == "photo_update" then
          handlePhotoUpdateApproval st sug adminId now cdnUrl bucket
        else
          let moved := movePhotos newLocId cdnUrl bucket st.blobs sug.photos
          let locItem : Location :=
            { id := newLocId, address := sug.address, description := sug.description,
              lat := sug.lat, lng := sug.lng, photos := moved.2, status := "active",
              feedbackCount := 0, averageRating := 0, likeCount := 0, reportCount := 0,
              createdAt := now, createdBy := sug.submittedBy,
              createdByUsername := username,
              decorations := if sug.detectedTags ≠ [] then sug.detectedTags else [],
              aiDescription := if sug.aiDescription ≠ "" then sug.aiDescription else "",
              displayQuality := if sug.displayQuality ≠ "" then sug.displayQuality else "" }
          let sugs := sgModify st.suggestions suggestionId (fun s =>
            { s with status := "approved", reviewedAt := now, reviewedBy := adminId,
                     locationId := newLocId })
          ({ suggestions := sugs, locations := locPut st.locations locItem,
             blobs := moved.1 },
           { statusCode := 200, success := true, message := "Suggestion approved",
             locationId := some newLocId })

/-- `handler` (reject_suggestion.py): the reject operation — delete each
staged photo under `pending/`, then stamp the Suggestion rejected. -/
def rejectSuggestion (st : ModState) (suggestionId adminId reason now : String) :
    ModState × Resp :=
  if suggestionId = "" then
    (st, { statusCode := 400, success := false, message := "Suggestion ID required" })
  else
    match sgGet st.suggestions suggestionId with
    | none =>
        (st, { statusCode := 404, success := false, message := "Suggestion not found" })
    | some sug =>
        if sug.status ≠ "pending" then
          (st, { statusCode := 400, success := false,
                 message := "Suggestion already processed" })
        else
          let blobs := sug.photos.foldl
            (fun bs k =>
              if k ≠ "" && strStartsWith k "pending/" then bs.filter (fun b => b ≠ k) else bs)
            st.blobs
          let sugs := sgModify st.suggestions suggestionId (fun s =>
            { s with status := "rejected", reviewedAt := now, reviewedBy := adminId,
                     rejectionReason := reason })
          ({ st with suggestions := sugs, blobs := blobs },
           { statusCode := 200, success := true, message := "Suggestion rejected" })

/-- An EngagementRecord on a Location (Feedback table item,
`PK = feedback#id`, `SK = location#locationId`). -/
structure Feedback where
  id : String
  locationId : String
  userId : String
  type : String
  createdAt : String := ""
  rating : Option Int := none
deriving Repr, DecidableEq

/-- FeedbackTable.create_feedback_atomic (db.py): conditional put that fails
with ConditionalCheckFailedException when an item with the same key already
exists.  Returns the table, the success flag and the error code. -/
def fbCreateAtomic (fbs : List Feedback) (f : Feedback) :
    List Feedback × Bool × String :=
  if fbs.any (fun g => g.id == f.id && g.locationId == f.locationId) then
    (fbs, false, "ConditionalCheckFailedException")
  else (fbs ++ [f], true, "")

/-- FeedbackTable.create (db.py): plain put_item. -/
def fbPut (fbs : List Feedback) (f : Feedback) : List Feedback :=
  (fbs.filter (fun g => !(g.id == f.id && g.locationId == f.locationId))) ++ [f]

/-- FeedbackTable.delete (db.py). -/
def fbDelete (fbs : List Feedback) (id locationId : String) : List Feedback :=
  fbs.filter (fun g => !(g.id == id && g.locationId == locationId))

/-- FeedbackTable.get_user_feedback (db.py): first item for this user,
location and type. -/
def fbGetUserFeedback (fbs : List Feedback) (locationId userId ftype : String) :
    Option Feedback :=
  fbs.find? (fun g => g.userId == userId && g.locationId == locationId && g.type == ftype)

/-- Location-engagement state: the Locations table and the Feedback table. -/
structure FbState where
  locations : List Location
  feedback : List Feedback
deriving Repr, DecidableEq

/-- `handler` (toggle_favorite.py): toggle the favorite EngagementRecord for
`(user, location)`.  Neither branch touches any Location counter. -/
def toggleFavorite (st : FbState) (userId locationId now : String) : FbState × Resp :=
  if locationId = "" then
    (st, { statusCode := 400, success := false, message := "Validation failed" })
  else
    match locGet st.locations locationId with
    | none =>
        (st, { statusCode := 404, success := false, message := "Location not found" })
    | some _ =>
        match fbGetUserFeedback st.feedback locationId userId "favorite" with
        | some ex =>
            ({ st with feedback := fbDelete st.feedback ex.id locationId },
             { statusCode := 200, success := true, favorited := some false,
               message := "Removed from favorites" })
        | none =>
            let fid := "favorite-" ++ userId ++ "-" ++ locationId
            let fd : Feedback :=
              { id := fid, locationId := locationId, userId := userId,
                type := "favorite", createdAt := now }
            let created := fbCreateAtomic st.feedback fd
            if created.2.1 then
              ({ st with feedback := created.1 },
               { statusCode := 201, success := true, favorited := some true,
                 message := "Added to favorites!" })
            else if created.2.2 == "ConditionalCheckFailedException" then
              (st, { statusCode := 200, success := true, favorited := some true,
                     message := "Already in favorites" })
            else
              (st, { statusCode := 500, success := false,
                     message := "An unexpected error occurred" })

/-- `handler` (submit_feedback.py): like toggle (and star rating) on a
Location.  The star branch calls FeedbackTable.update_rating_value,
LocationsTable.increment_feedback_count, FeedbackTable.calculate_average_rating
and LocationsTable.update_rating — none of which exist in db.py, so at runtime
it raises AttributeError, caught by the outer handler as internal_error; the
model reproduces that, including the Feedback put that precedes the crash on
the create path. -/
def submitFeedback (st : FbState) (userId locationId ftype : String)
    (rating : Option Int) (now freshId : String) : FbState × Resp :=
  if locationId = "" then
    (st, { statusCode := 400, success := false, message := "Validation failed" })
  else if !(ftype == "like" || ftype == "star") then
    (st, { statusCode := 400, success := false, message := "Validation failed" })
  else if ftype == "star" && rating = none then
    (st, { statusCode := 400, success := false, message := "Validation failed" })
  else if ftype == "star" && !(rating.any (fun r => 1 ≤ r && r ≤ 5)) then
    (st, { statusCode := 400, success := false, message := "Validation failed" })
  else
    match locGet st.locations locationId with
    | none =>
        (st, { statusCode := 404, success := false, message := "Location not found" })
    | some _ =>
        let existing := fbGetUserFeedback st.feedback locationId userId ftype
        if ftype == "like" then
          match existing with
          | some ex =>
              ({ locations := locDecLikeCount st.locations locationId,
                 feedback := fbDelete st.feedback ex.id locationId },
               { statusCode := 200, success := true, liked := some false,
                 message := "Like removed" })
          | none =>
              let fid := "like-" ++ userId ++ "-" ++ locationId
              let fd : Feedback :=
                { id := fid, locationId := locationId, userId := userId,
                  type := "like", createdAt := now }
              let created := fbCreateAtomic st.feedback fd
              if created.2.1 then
                ({ locations := locIncLikeCount st.locations locationId,
                   feedback := created.1 },
                 { statusCode := 201, success := true, liked := some true,
                   dataId := some fid, message := "Location liked!" })
              else if created.2.2 == "ConditionalCheckFailedException" then
                let reread := fbGetUserFeedback st.feedback locationId userId "like"
                (st, { statusCode := 200, success := true, liked := some true,
                       dataId := some ((reread.map (fun g => g.id)).getD fid),
                       message := "Location liked!" })
              else
                (st, { statusCode := 500, success := false,
                       message := "An unexpected error occurred" })
        else
          match existing with
          | some _ =>
              (st, { statusCode := 500, success := false,
                     message := "An unexpected error occurred" })
          | none =>
              let fd : Feedback :=
                { id := freshId, locationId := locationId, userId := userId,
                  type := "star", rating := rating, createdAt := now }
              ({ st with feedback := fbPut st.feedback fd },
               { statusCode := 500, success := false,
                 message := "An unexpected error occurred" })

/-- A Route item (`PK = route#id`, `SK = "metadata"`). -/
structure Route where
  id : String
  status : String := "active"
  createdBy : String := ""
  createdAt : String := ""
  likeCount : Int := 0
  saveCount : Int := 0
  startCount : Int := 0
deriving Repr, DecidableEq

/-- An EngagementRecord on a Route (RouteFeedback table item,
`PK = routeFeedback#id`, `SK = route#routeId`). -/
structure RouteFeedback where
  id : String
  routeId : String
  userId : String
  type : String
  createdAt : String := ""
deriving Repr, DecidableEq

/-- RoutesTable.get (db.py). -/
def rtGet (rts : List Route) (id : String) : Option Route :=
  rts.find? (fun r => r.id == id)

/-- `update_item` on one Route (no-op when absent, see `locModify`). -/
def rtModify (rts : List Route) (id : String) (f : Route → Route) : List Route :=
  rts.map (fun r => if r.id == id then f r else r)

/-- RoutesTable.increment_like_count (db.py). -/
def rtIncLikeCount (rts : List Route) (id : String) : List Route :=
  rtModify rts id (fun r => { r with likeCount := incCounter r.likeCount })

/-- RoutesTable.decrement_like_count (db.py): conditional on `likeCount > 0`. -/
def rtDecLikeCount (rts : List Route) (id : String) : List Route :=
  rtModify rts id (fun r => { r with likeCount := decCounter r.likeCount })

/-- RoutesTable.increment_save_count (db.py). -/
def rtIncSaveCount (rts : List Route) (id : String) : List Route :=
  rtModify rts id (fun r => { r with saveCount := incCounter r.saveCount })

/-- RoutesTable.decrement_save_count (db.py): conditional on `saveCount > 0`. -/
def rtDecSaveCount (rts : List Route) (id : String) : List Route :=
  rtModify rts id (fun r => { r with saveCount := decCounter r.saveCount })

/-- RouteFeedbackTable.create_atomic (db.py): conditional put that fails when
an item with the same key already exists. -/
def rfCreateAtomic (fbs : List RouteFeedback) (f : RouteFeedback) :
    List RouteFeedback × Bool × String :=
  if fbs.any (fun g => g.id == f.id && g.routeId == f.routeId) then
    (fbs, false, "ConditionalCheckFailedException")
  else (fbs ++ [f], true, "")

/-- RouteFeedbackTable.delete (db.py). -/
def rfDelete (fbs : List RouteFeedback) (id routeId : String) : List RouteFeedback :=
  fbs.filter (fun g => !(g.id == id && g.routeId == routeId))

/-- RouteFeedbackTable.get_user_feedback (db.py). -/
def rfGetUserFeedback (fbs : List RouteFeedback) (routeId userId ftype : String) :
    Option RouteFeedback :=
  fbs.find? (fun g => g.userId == userId && g.routeId == routeId && g.type == ftype)

/-- Route-engagement state: the Routes table and the RouteFeedback table. -/
structure RtState where
  routes : List Route
  feedback : List RouteFeedback
deriving Repr, DecidableEq

/-- The create branch of `handler` (route_feedback.py, the `else` of the
existing-feedback test): compute the deterministic id, attempt the conditional
create; on success increment the matching counter (201); on
ConditionalCheckFailedException — the lost race — re-read the existing record
and report success (200) without touching the counter. -/
def routeReactAttempt (st : RtState) (userId routeId ftype now : String) :
    RtState × Resp :=
  let fid := ftype ++ "-" ++ userId ++ "-" ++ routeId
  let fd : RouteFeedback :=
    { id := fid, routeId := routeId, userId := userId, type := ftype, createdAt := now }
  let created := rfCreateAtomic st.feedback fd
  if created.2.1 then
    if ftype == "like" then
      ({ routes := rtIncLikeCount st.routes routeId, feedback := created.1 },
       { statusCode := 201, success := true, liked := some true,
         dataId := some fid, message := "Route liked!" })
    else
      ({ routes := rtIncSaveCount st.routes routeId, feedback := created.1 },
       { statusCode := 201, success := true, saved := some true,
         dataId := some fid, message := "Route saved!" })
  else if created.2.2 == "ConditionalCheckFailedException" then
    let reread := rfGetUserFeedback st.feedback routeId userId ftype
    if ftype == "like" then
      (st, { statusCode := 200, success := true, liked := some true,
             dataId := some ((reread.map (fun g => g.id)).getD fid),
             message := "Route liked!" })
    else
      (st, { statusCode := 200, success := true, saved := some true,
             dataId := some ((reread.map (fun g => g.id)).getD fid),
             message := "Route saved!" })
  else
    (st, { statusCode := 500, success := false,
           message := "An unexpected error occurred" })

/-- `handler` (route_feedback.py): toggle a like/save EngagementRecord on a
Route, keeping the matching counter in step. -/
def routeFeedbackToggle (st : RtState) (userId routeId ftype now : String) :
    RtState × Resp :=
  if routeId = "" then
    (st, { statusCode := 400, success := false, message := "Validation failed" })
  else if !(ftype == "like" || ftype == "save") then
    (st, { statusCode := 400, success := false, message := "Validation failed" })
  else
    match rtGet st.routes routeId with
    | none =>
        (st, { statusCode := 404, success := false, message := "Route not found" })
    | some route =>
        if route.status ≠ "active" && route.createdBy ≠ userId then
          (st, { statusCode := 404, success := false, message := "Route not found" })
        else
          match rfGetUserFeedback st.feedback routeId userId ftype with
          | some ex =>
              if ftype == "like" then
                ({ routes := rtDecLikeCount st.routes routeId,
                   feedback := rfDelete st.feedback ex.id routeId },
                 { statusCode := 200, success := true, liked := some false,
                   message := "Like removed" })
              else
                ({ routes := rtDecSaveCount st.routes routeId,
                   feedback := rfDelete st.feedback ex.id routeId },
                 { statusCode := 200, success := true, saved := some false,
                   message := "Route unsaved" })
          | none => routeReactAttempt st userId routeId ftype now

/-- Python `set(tag.lower().split())`, as a duplicate-free word list. -/
def pyWords (tag : String) : List String :=
  (pySplitWs (pyLower tag)).dedup

/-- Subset test on duplicate-free word lists. -/
def wordsSubset (a b : List String) : Bool :=
  a.all (fun w => w ∈ b)

/-- Python strict subset `a < b` on word sets. -/
def wordsProperSubset (a b : List String) : Bool :=
  wordsSubset a b && !(wordsSubset b a)

/-- The stem test of `deduplicate_tags_semantically` (analyze_photo.py): both
words at least 4 characters and equal on a shared prefix of
`max(4, int(min_len * 0.7))` characters.  For every `min_len < 90` the exact
`7 * min_len / 10` below coincides with the binary64 `int(min_len * 0.7)` the
Python evaluates (the first divergence is at length 90). -/
def stemMatchB (wI wJ : String) : Bool :=
  if 4 ≤ wI.length && 4 ≤ wJ.length then
    let minLen := min wI.length wJ.length
    let prefLen := max 4 (7 * minLen / 10)
    pyTake wI prefLen == pyTake wJ prefLen
  else false

/-- The inner `for j` loop of `deduplicate_tags_semantically` for a fixed
`tag_i`, over the tags after it (`i >= j` iterations skip, so only later tags
matter).  Returns the updated removal set and whether the loop hit a `break`
(which happens exactly when `tag_i` itself was removed).

Python computes `similarity_ratio = total_matches / min_words` in binary64 and
tests `== 1.0`; both counts are at most the number of words of a tag (far
below 2^52), so that float test holds exactly when `total_matches = min_words`
— which is how it is written below.  (When `min_words = 0`, i.e. both tags
have no words at all, Python raises ZeroDivisionError instead of removing
anything; here the `2 ≤ total` conjunct is false, so nothing is removed
either.) -/
def dedupInner (tagI : String) : List String → List String → List String × Bool
  | [], rm => (rm, false)
  | tagJ :: rest, rm =>
    if tagJ ∈ rm then dedupInner tagI rest rm
    else
      let wI := pyWords tagI
      let wJ := pyWords tagJ
      if wordsProperSubset wI wJ then (tagI :: rm, true)
      else if wordsProperSubset wJ wI then dedupInner tagI rest (tagJ :: rm)
      else
        let overlap := wI.filter (fun w => w ∈ wJ)
        let minWords := min wI.length wJ.length
        if overlap ≠ [] || (wI.length ≤ 2 && wJ.length ≤ 2) then
          let unmatchedI := wI.filter (fun w => w ∉ wJ)
          let unmatchedJ := wJ.filter (fun w => w ∉ wI)
          let stemMatches :=
            (unmatchedI.filter (fun a => unmatchedJ.any (fun b => stemMatchB a b))).length
          let total := overlap.length + stemMatches
          if total == minWords && 2 ≤ total then
            if tagJ.length < tagI.length then dedupInner tagI rest (tagJ :: rm)
            else (tagI :: rm, true)
          else dedupInner tagI rest rm
        else dedupInner tagI rest rm

/-- The outer `for i` loop of `deduplicate_tags_semantically`. -/
def dedupOuter : List String → List String → List String
  | [], rm => rm
  | tagI :: rest, rm =>
    if tagI ∈ rm then dedupOuter rest rm
    else dedupOuter rest (dedupInner tagI rest rm).1

/-- Lexicographic code-point comparison of character lists — the string
ordering Python `sorted` uses. -/
def charsLt : List Char → List Char → Bool
  | [], [] => false
  | [], _ :: _ => true
  | _ :: _, [] => false
  | a :: as, b :: bs =>
      if a.toNat < b.toNat then true
      else if b.toNat < a.toNat then false
      else charsLt as bs

/-- Non-strict string comparison for `sortStrings`. -/
def strLeB (a b : String) : Bool := !(charsLt b.data a.data)

/-- Insert into a ≤-sorted string list, keeping the ordering of Python
`sorted` (lexicographic on code points). -/
def insertSorted (a : String) : List String → List String
  | [] => [a]
  | b :: t => if strLeB a b then a :: b :: t else b :: insertSorted a t

/-- Python `sorted` on strings. -/
def sortStrings (l : List String) : List String :=
  l.foldr insertSorted []

/-- `deduplicate_tags_semantically` (analyze_photo.py). -/
def deduplicateTagsSemantically (tags : List String) : List String :=
  if tags.length ≤ 1 then tags
  else
    let rm := dedupOuter tags []
    sortStrings (tags.filter (fun t => t ∉ rm))

/-- The tag-merge step of `update_suggestion_tags` (analyze_photo.py) applied
to a merged union list: deduplicate semantically, then hard-cap at 10 items. -/
def mergeTagCap (merged : List String) : List String :=
  let ded := deduplicateTagsSemantically merged
  if 10 < ded.length then ded.take 10 else ded

/-! Helper lemmas about the table primitives, shared by the claim theorems. -/

lemma applyCounterOp_nonneg (v : Int) (op : CounterOp) (h : 0 ≤ v) :
    0 ≤ applyCounterOp v op := by
  cases op with
  | inc => simp only [applyCounterOp, incCounter]; omega
  | dec =>
      simp only [applyCounterOp, decCounter]
      split <;> omega

lemma applyCounterOps_nonneg (v : Int) (ops : List CounterOp) (h : 0 ≤ v) :
    0 ≤ applyCounterOps v ops := by
  induction ops generalizing v with
  | nil => simpa [applyCounterOps] using h
  | cons op ops ih =>
      simpa [applyCounterOps, List.foldl_cons] using
        ih (applyCounterOp v op) (applyCounterOp_nonneg v op h)

lemma locGet_locModify (locs : List Location) (id : String) (f : Location → Location)
    (hf : ∀ l, (f l).id = l.id) :
    locGet (locModify locs id f) id = (locGet locs id).map f := by
  induction locs with
  | nil => rfl
  | cons hd t ih =>
      simp only [locGet, locModify] at ih ⊢
      by_cases hp : hd.id = id
      · have h2 : (f hd).id = id := by rw [hf hd]; exact hp
        simp [List.find?_cons, hp, h2]
      · simp [List.find?_cons, hp] at ih ⊢
        exact ih

lemma locGet_locModify_ne (locs : List Location) (id id' : String)
    (f : Location → Location) (hf : ∀ l, (f l).id = l.id) (hne : id' ≠ id) :
    locGet (locModify locs id f) id' = locGet locs id' := by
  induction locs with
  | nil => rfl
  | cons hd t ih =>
      simp only [locGet, locModify] at ih ⊢
      have hne' : ¬(id = id') := fun h => hne h.symm
      by_cases hp : hd.id = id
      · have h2 : ¬((f hd).id = id') := by
          rw [hf hd, hp]
          exact hne'
        simp [List.find?_cons, hp, h2, hne'] at ih ⊢
        exact ih
      · by_cases hp' : hd.id = id'
        · simp [List.find?_cons, hp, hp', hne]
        · simp [List.find?_cons, hp, hp'] at ih ⊢
          exact ih

lemma rtGet_rtModify (rts : List Route) (id : String) (f : Route → Route)
    (hf : ∀ r, (f r).id = r.id) :
    rtGet (rtModify rts id f) id = (rtGet rts id).map f := by
  induction rts with
  | nil => rfl
  | cons hd t ih =>
      simp only [rtGet, rtModify] at ih ⊢
      by_cases hp : hd.id = id
      · have h2 : (f hd).id = id := by rw [hf hd]; exact hp
        simp [List.find?_cons, hp, h2]
      · simp [List.find?_cons, hp] at ih ⊢
        exact ih

lemma find?_append_of_none {α : Type} (p : α → Bool) (l1 l2 : List α)
    (h : l1.find? p = none) : (l1 ++ l2).find? p = l2.find? p := by
  induction l1 with
  | nil => simp
  | cons a t ih =>
      cases hp : p a with
      | true => simp [List.find?_cons, hp] at h
      | false =>
          simp only [List.find?_cons, hp] at h
          simpa [List.find?_cons, hp] using ih h

lemma find?_eq_none_of_all {α : Type} (p : α → Bool) (l : List α)
    (h : ∀ a ∈ l, p a = false) : l.find? p = none := by
  induction l with
  | nil => rfl
  | cons a t ih =>
      have ha := h a (by simp)
      simp only [List.find?_cons, ha]
      exact ih (fun b hb => h b (by simp [hb]))

/-- C2: the Counter Store decrement has a floor of zero — a positive value is
reduced by one, a zero value is left unchanged without error, and from any
non-negative start every sequence of increments and guarded decrements keeps
the counter non-negative. -/
theorem counter_decrement_never_below_zero :
    ∀ (v : Int) (ops : List CounterOp),
      (0 < v → decCounter v = v - 1) ∧
      decCounter 0 = 0 ∧
      (0 ≤ v → 0 ≤ applyCounterOps v ops) := by
  intro v ops
  refine ⟨fun h => ?_, by decide, fun h => applyCounterOps_nonneg v ops h⟩
  simp [decCounter, h]

/-- Witness for `counter_decrement_never_below_zero` at concrete inputs. -/
theorem counter_decrement_never_below_zero_witness :
    (0 < (1 : Int) ∧ decCounter 1 = 1 - 1) ∧
    (0 ≤ (0 : Int) ∧
      0 ≤ applyCounterOps 0
          [CounterOp.dec, CounterOp.inc, CounterOp.dec, CounterOp.dec]) :=
  ⟨⟨by decide, (counter_decrement_never_below_zero 1 []).1 (by decide)⟩,
   ⟨by decide,
    (counter_decrement_never_below_zero 0
        [CounterOp.dec, CounterOp.inc, CounterOp.dec, CounterOp.dec]).2.2 (by decide)⟩⟩

/-- C3: evaluation of the tag deduplicator on the three merge examples, in
both union orders.  The pair {"snowman figures", "inflatable snowmen"} is NOT
merged — only "snowman"/"snowmen" stem-match, so the matched fraction is 1/2
and both tags survive, contradicting the claimed singleton
{"inflatable snowmen"} (and the function's own docstring); the other two
examples behave as claimed. -/
theorem tag_dedup_examples_eval :
    deduplicateTagsSemantically ["snowman figures", "inflatable snowmen"]
        = ["inflatable snowmen", "snowman figures"] ∧
    deduplicateTagsSemantically ["inflatable snowmen", "snowman figures"]
        = ["inflatable snowmen", "snowman figures"] ∧
    deduplicateTagsSemantically ["inflatable snowmen", "gingerbread inflatables"]
        = ["gingerbread inflatables", "inflatable snowmen"] ∧
    deduplicateTagsSemantically ["gingerbread inflatables", "inflatable snowmen"]
        = ["gingerbread inflatables", "inflatable snowmen"] ∧
    deduplicateTagsSemantically ["reindeer figures", "white reindeer figures"]
        = ["white reindeer figures"] ∧
    deduplicateTagsSemantically ["white reindeer figures", "reindeer figures"]
        = ["white reindeer figures"] := by
  refine ⟨?_, ?_, ?_, ?_, ?_, ?_⟩ <;> rfl

lemma sgGet_sgModify (sugs : List Suggestion) (id : String) (f : Suggestion → Suggestion)
    (hf : ∀ s, (f s).id = s.id) :
    sgGet (sgModify sugs id f) id = (sgGet sugs id).map f := by
  induction sugs with
  | nil => rfl
  | cons hd t ih =>
      simp only [sgGet, sgModify] at ih ⊢
      by_cases hp : hd.id = id
      · have h2 : (f hd).id = id := by rw [hf hd]; exact hp
        simp [List.find?_cons, hp, h2]
      · simp [List.find?_cons, hp] at ih ⊢
        exact ih

/-- C6: approving a Submission whose status is no longer `pending` is rejected
as "Suggestion already processed" — an error response with no data — and the
whole state (Suggestions, Locations, photo bucket) is returned unchanged: no
second Location is created, no photo is moved, the Submission keeps its
record. -/
theorem approve_non_pending_conflict_no_side_effects :
    ∀ (st : ModState) (suggestionId adminId now newLocId cdnUrl bucket username : String)
      (sug : Suggestion),
      suggestionId ≠ "" →
      sgGet st.suggestions suggestionId = some sug →
      sug.status ≠ "pending" →
      approveSuggestion st suggestionId adminId now newLocId cdnUrl bucket username
        = (st, { statusCode := 400, success := false,
                 message := "Suggestion already processed" }) := by
  intro st sid aid now nlid cdn bkt un sug hne hget hstat
  simp [approveSuggestion, hne, hget, hstat]

/-- Witness for `approve_non_pending_conflict_no_side_effects`: a second
approve of an already-approved Submission. -/
theorem approve_non_pending_conflict_no_side_effects_witness :
    ("s1" : String) ≠ "" ∧
    sgGet [{ id := "s1", status := "approved" }] "s1"
      = some { id := "s1", status := "approved" } ∧
    ({ id := "s1", status := "approved" } : Suggestion).status ≠ "pending" ∧
    approveSuggestion
        { suggestions := [{ id := "s1", status := "approved" }],
          locations := [], blobs := [] } "s1" "admin" "t1" "L9" "" "bucket" ""
      = ({ suggestions := [{ id := "s1", status := "approved" }],
           locations := [], blobs := [] },
         { statusCode := 400, success := false,
           message := "Suggestion already processed" }) :=
  ⟨by decide, by rfl, by decide,
   approve_non_pending_conflict_no_side_effects
     { suggestions := [{ id := "s1", status := "approved" }],
       locations := [], blobs := [] }
     "s1" "admin" "t1" "L9" "" "bucket" "" { id := "s1", status := "approved" }
     (by decide) (by rfl) (by decide)⟩

lemma strStartsWith_nil (pre : String) (h : pre.data ≠ []) :
    strStartsWith "" pre = false := by
  cases hd : pre.data with
  | nil => exact absurd hd h
  | cons c cs => simp [strStartsWith, hd, List.isPrefixOf]

lemma rejectBlobs_eq (photos blobs : List String) :
    photos.foldl
        (fun bs k =>
          if k ≠ "" && strStartsWith k "pending/" then bs.filter (fun b => b ≠ k) else bs)
        blobs
      = blobs.filter
          (fun b => decide (¬(b ∈ photos ∧ strStartsWith b "pending/" = true))) := by
  induction photos generalizing blobs with
  | nil => simp
  | cons p ps ih =>
      simp only [List.foldl_cons]
      rw [ih]
      by_cases hsw : strStartsWith p "pending/" = true
      · have hpe : p ≠ "" := by
          intro h
          rw [h, strStartsWith_nil "pending/" (by decide)] at hsw
          exact Bool.false_ne_true hsw
        have hc : (decide ¬(p = "") && strStartsWith p "pending/") = true := by
          simp [hpe, hsw]
        simp only [ne_eq, hc, if_true]
        rw [List.filter_filter]
        apply List.filter_congr
        intro b _
        by_cases hbp : b = p
        · subst hbp
          simp [hsw]
        · simp [hbp]
      · have hc : (decide ¬(p = "") && strStartsWith p "pending/") = false := by
          simp [hsw]
        simp only [ne_eq, hc, Bool.false_eq_true, if_false]
        apply List.filter_congr
        intro b _
        by_cases hbp : b = p
        · subst hbp
          simp [hsw]
        · simp [hbp]

/-- C9: rejecting a pending Submission answers 200 "Suggestion rejected",
removes from the photo bucket exactly its staged (`pending/`-prefixed) photos
— in particular nothing is added, so the published area is untouched — leaves
the Locations table unchanged, and stamps the Submission with status
`rejected`, `reviewedBy`, `reviewedAt` and `rejectionReason`. -/
theorem reject_deletes_staged_photos_no_published_writes :
    ∀ (st : ModState) (sid aid reason now : String) (sug : Suggestion),
      sid ≠ "" →
      sgGet st.suggestions sid = some sug →
      sug.status = "pending" →
      (rejectSuggestion st sid aid reason now).2
          = { statusCode := 200, success := true, message := "Suggestion rejected" } ∧
      (∀ k, k ∈ (rejectSuggestion st sid aid reason now).1.blobs ↔
          k ∈ st.blobs ∧ ¬(k ∈ sug.photos ∧ strStartsWith k "pending/" = true)) ∧
      (rejectSuggestion st sid aid reason now).1.locations = st.locations ∧
      sgGet (rejectSuggestion st sid aid reason now).1.suggestions sid
          = some { sug with
                     status := "rejected", reviewedAt := now,
                     reviewedBy := aid, rejectionReason := reason } := by
  intro st sid aid reason now sug hne hget hstat
  have hred : rejectSuggestion st sid aid reason now
      = ({ st with
            suggestions := sgModify st.suggestions sid (fun s =>
              { s with status := "rejected", reviewedAt := now, reviewedBy := aid,
                       rejectionReason := reason }),
            blobs := sug.photos.foldl
              (fun bs k =>
                if k ≠ "" && strStartsWith k "pending/" then bs.filter (fun b => b ≠ k)
                else bs) st.blobs },
         { statusCode := 200, success := true, message := "Suggestion rejected" }) := by
    simp [rejectSuggestion, hne, hget, hstat]
  refine ⟨by rw [hred], ?_, by rw [hred], ?_⟩
  · intro k
    rw [hred]
    simp only [rejectBlobs_eq, List.mem_filter, decide_eq_true_eq]
  · rw [hred]
    show sgGet (sgModify st.suggestions sid _) sid = _
    rw [sgGet_sgModify st.suggestions sid
        (fun s => { s with status := "rejected", reviewedAt := now, reviewedBy := aid,
                           rejectionReason := reason })
        (fun s => rfl), hget]
    rfl

/-- Witness for `reject_deletes_staged_photos_no_published_writes`: rejecting
a pending Submission with one staged photo while an unrelated published photo
sits in the bucket. -/
theorem reject_deletes_staged_photos_no_published_writes_witness :
    ("s2" : String) ≠ "" ∧
    sgGet [{ id := "s2", status := "pending", photos := ["pending/a.jpg"] }] "s2"
      = some { id := "s2", status := "pending", photos := ["pending/a.jpg"] } ∧
    ({ id := "s2", status := "pending", photos := ["pending/a.jpg"] } : Suggestion).status
      = "pending" ∧
    (∀ k, k ∈ (rejectSuggestion
        { suggestions := [{ id := "s2", status := "pending", photos := ["pending/a.jpg"] }],
          locations := [], blobs := ["pending/a.jpg", "approved/L1/b.jpg"] }
        "s2" "admin" "why" "t2").1.blobs ↔
      k ∈ ["pending/a.jpg", "approved/L1/b.jpg"] ∧
        ¬(k ∈ ["pending/a.jpg"] ∧ strStartsWith k "pending/" = true)) :=
  ⟨by decide, by rfl, by decide,
   (reject_deletes_staged_photos_no_published_writes
      { suggestions := [{ id := "s2", status := "pending", photos := ["pending/a.jpg"] }],
        locations := [], blobs := ["pending/a.jpg", "approved/L1/b.jpg"] }
      "s2" "admin" "why" "t2"
      { id := "s2", status := "pending", photos := ["pending/a.jpg"] }
      (by decide) (by rfl) (by decide)).2.1⟩

/-- C8: the submitEntry handler re-runs the duplicate check server-side at
write time — for a new_location payload that passes the earlier validations
and matches an active Location or pending new_location Submission, it answers
409 with the duplicate message and returns the state unchanged: no Submission
record is written. -/
theorem submit_duplicate_rejected_no_write :
    ∀ (st : ModState) (userId userEmail targetLocationId address description : String)
      (lat lng : ℚ) (photos : List String) (freshId now : String),
      userId ≠ "" →
      pyStrip address ≠ "" →
      ¬((pyStrip description).length < 20) →
      (validateAddressFormat (pyStrip address)).1 = true →
      (checkForDuplicate st.locations st.suggestions lat lng (pyStrip address)).1 = true →
      submitSuggestion st userId userEmail "new_location" targetLocationId address
          description (some lat) (some lng) photos freshId now
        = (st, { statusCode := 409, success := false,
                 message := (checkForDuplicate st.locations st.suggestions lat lng
                   (pyStrip address)).2 }) := by
  intro st uid ue tgt addr desc lat lng photos fid now hu ha hd hva hdup
  simp [submitSuggestion, hu, ha, hd, hva, hdup]

/-- Witness for `submit_duplicate_rejected_no_write`: a valid payload whose
coordinates coincide with an active Location. -/
theorem submit_duplicate_rejected_no_write_witness :
    (checkForDuplicate
        [{ id := "L1", address := "123 Main St", lat := 10, lng := 20, status := "active" }]
        [] 10 20 (pyStrip "99 Other Road")).1 = true ∧
    submitSuggestion
        { suggestions := [],
          locations := [{ id := "L1", address := "123 Main St", lat := 10, lng := 20,
                          status := "active" }],
          blobs := [] }
        "u1" "u1@example.com" "new_location" "" "99 Other Road"
        "a very long description over twenty chars" (some 10) (some 20) [] "f1" "t3"
      = ({ suggestions := [],
           locations := [{ id := "L1", address := "123 Main St", lat := 10, lng := 20,
                           status := "active" }],
           blobs := [] },
         { statusCode := 409, success := false,
           message := (checkForDuplicate
             [{ id := "L1", address := "123 Main St", lat := 10, lng := 20,
                status := "active" }]
             [] 10 20 (pyStrip "99 Other Road")).2 }) := by
  have hdup : (checkForDuplicate
      [{ id := "L1", address := "123 Main St", lat := 10, lng := 20, status := "active" }]
      [] 10 20 (pyStrip "99 Other Road")).1 = true := by
    simp [checkForDuplicate, List.findSome?_cons]
  exact ⟨hdup,
    submit_duplicate_rejected_no_write
      { suggestions := [],
        locations := [{ id := "L1", address := "123 Main St", lat := 10, lng := 20,
                        status := "active" }],
        blobs := [] }
      "u1" "u1@example.com" "" "99 Other Road"
      "a very long description over twenty chars" 10 20 [] "f1" "t3"
      (by decide) (by decide) (by decide) (by decide) hdup⟩

lemma find?_isSome_iff {α : Type} (p : α → Bool) (l : List α) :
    (l.find? p).isSome = true ↔ ∃ x ∈ l, p x = true := by
  induction l with
  | nil => simp
  | cons a t ih =>
      cases hp : p a with
      | true =>
          constructor
          · intro _
            exact ⟨a, by simp, hp⟩
          · intro _
            simp [List.find?_cons, hp]
      | false =>
          simp only [List.find?_cons, hp, List.mem_cons]
          rw [ih]
          constructor
          · intro ⟨x, hx, hpx⟩
            exact ⟨x, Or.inr hx, hpx⟩
          · intro ⟨x, hx, hpx⟩
            rcases hx with rfl | hx
            · rw [hp] at hpx
              exact absurd hpx (by decide)
            · exact ⟨x, hx, hpx⟩

/-- Evaluations of `round_coordinate` at the coordinates of the spec's
examples (and at the integer coordinates used in counterexamples). -/
lemma roundCoordinate_examples :
    roundCoordinate (3277670/100000) = 327767/10000 ∧
    roundCoordinate (3277669/100000) = 327767/10000 ∧
    roundCoordinate (-9679700/100000) = -967970/10000 ∧
    roundCoordinate (-9679701/100000) = -967970/10000 ∧
    roundCoordinate (3277770/100000) = 327777/10000 ∧
    roundCoordinate 10 = 10 ∧
    roundCoordinate 20 = 20 := by
  refine ⟨?_, ?_, ?_, ?_, ?_, ?_, ?_⟩ <;>
    · simp only [roundCoordinate, roundHalfEven]
      norm_num [Int.floor_eq_iff]

/-- C7 counterexample: the claim reads "the normalized address strings are
equal — either condition alone suffices", but for a record whose address
normalizes to the empty string the scan skips the address comparison
(`if item_address and ...`), so an equal (empty) normalized address is NOT
flagged as a duplicate. -/
theorem duplicate_detector_empty_address_counterexample :
    normalizeAddress "" = normalizeAddress
      ({ id := "L1", address := "", lat := 10, lng := 10, status := "active" } :
        Location).address ∧
    checkLocationsTable
        [{ id := "L1", address := "", lat := 10, lng := 10, status := "active" }]
        (roundCoordinate 20) (roundCoordinate 20) (normalizeAddress "")
      = none := by
  constructor
  · rfl
  · have h10 := roundCoordinate_examples.2.2.2.2.2.1
    have h20 := roundCoordinate_examples.2.2.2.2.2.2
    simp [checkLocationsTable, locationDupMatch, List.find?_cons, h10, h20,
      normalizeAddress, pySplitWs, pyLower, wordsAux, joinSpace]

/-- C7 (amended): the Duplicate Detector flags a proposed point against the
active Locations exactly when some active record matches on the
rounded-coordinate pair or on equal normalized addresses WITH the record's
normalized address nonempty (either condition alone suffices); in particular
a proposed point at (32.77670, -96.79700) matches an active Location at
(32.77669, -96.79701) — both round to the same 4-decimal pair — while a point
with latitude 0.001 away and a different address does not match. -/
theorem duplicate_detector_amended :
    (∀ (locs : List Location) (latR lngR : ℚ) (addrN : String),
        (checkLocationsTable locs latR lngR addrN).isSome = true ↔
          ∃ l ∈ locs, l.status = "active" ∧
            ((roundCoordinate l.lat = latR ∧ roundCoordinate l.lng = lngR) ∨
             (normalizeAddress l.address ≠ "" ∧ normalizeAddress l.address = addrN))) ∧
    (checkLocationsTable
        [{ id := "L1", address := "742 Evergreen Terrace", lat := 3277669/100000,
           lng := -9679701/100000, status := "active" }]
        (roundCoordinate (3277670/100000)) (roundCoordinate (-9679700/100000))
        (normalizeAddress "1 Elsewhere Ave")).isSome = true ∧
    (checkLocationsTable
        [{ id := "L1", address := "742 Evergreen Terrace", lat := 3277669/100000,
           lng := -9679701/100000, status := "active" }]
        (roundCoordinate (3277770/100000)) (roundCoordinate (-9679700/100000))
        (normalizeAddress "1 Elsewhere Ave")).isSome = false := by
  obtain ⟨e1, e2, e3, e4, e5, -, -⟩ := roundCoordinate_examples
  refine ⟨?_, ?_, ?_⟩
  · intro locs latR lngR addrN
    rw [checkLocationsTable, find?_isSome_iff]
    constructor
    · intro ⟨l, hl, hp⟩
      rw [List.mem_filter] at hl
      refine ⟨l, hl.1, by simpa using hl.2, ?_⟩
      simpa [locationDupMatch, and_assoc] using hp
    · intro ⟨l, hl, hst, hcond⟩
      refine ⟨l, List.mem_filter.mpr ⟨hl, by simp [hst]⟩, ?_⟩
      simpa [locationDupMatch, and_assoc] using hcond
  · simp [checkLocationsTable, locationDupMatch, List.find?_cons, e1, e2, e3, e4]
  · have hlat : ((327767/10000 : ℚ) == (327777/10000 : ℚ)) = false := by
      rw [beq_eq_false_iff_ne]
      norm_num
    have haddr : (normalizeAddress "742 Evergreen Terrace"
        == normalizeAddress "1 Elsewhere Ave") = false := by decide
    simp [checkLocationsTable, locationDupMatch, List.find?_cons, e2, e3, e4, e5,
      hlat, haddr]

lemma pending_isPrefixOf_false (c : Char) (l : List Char) (hc : c ≠ 'p') :
    "pending/".data.isPrefixOf (c :: l) = false := by
  have h : "pending/".data = 'p' :: "ending/".data := rfl
  rw [h]
  simp [List.isPrefixOf, hc]
  intro he
  exact absurd he.symm hc

lemma approvedKey_not_pending (locId fn : String) :
    strStartsWith ("approved/" ++ locId ++ "/" ++ fn) "pending/" = false := by
  have h : ("approved/" ++ locId ++ "/" ++ fn).data
      = 'a' :: ("pproved/" ++ locId ++ "/" ++ fn).data := rfl
  rw [strStartsWith, h]
  exact pending_isPrefixOf_false 'a' _ (by decide)

/-- Keys under `pending/` are never added by the staged-photo move loop. -/
lemma movePhotos_pending_not_added (locId cdn bkt : String) (photos : List String)
    (blobs : List String) (urls : List String) (k : String)
    (hk : strStartsWith k "pending/" = true)
    (hmem : k ∉ blobs) :
    k ∉ (photos.foldl (movePhotoStep locId cdn bkt) (blobs, urls)).1 := by
  induction photos generalizing blobs urls with
  | nil => simpa using hmem
  | cons p ps ih =>
      simp only [List.foldl_cons]
      rcases hstep : movePhotoStep locId cdn bkt (blobs, urls) p with ⟨blobs1, urls1⟩
      apply ih
      simp only [movePhotoStep] at hstep
      split at hstep
      · split at hstep
        · have hb1 : blobs1 = (blobs.filter (fun b => b ≠ p)) ++
              (if ("approved/" ++ locId ++ "/" ++ lastComponent p) ∈
                  blobs.filter (fun b => b ≠ p) then []
               else ["approved/" ++ locId ++ "/" ++ lastComponent p]) := by
            have := congrArg Prod.fst hstep
            simpa using this.symm
          rw [hb1]
          intro hin
          rcases List.mem_append.mp hin with h1 | h2
          · exact hmem (List.mem_filter.mp h1).1
          · split at h2
            · simp at h2
            · simp only [List.mem_singleton] at h2
              rw [h2] at hk
              rw [approvedKey_not_pending] at hk
              exact Bool.false_ne_true hk
        · have hb1 : blobs1 = blobs := by
            have := congrArg Prod.fst hstep
            simpa using this.symm
          rw [hb1]
          exact hmem
      · have hb1 : blobs1 = blobs := by
          have := congrArg Prod.fst hstep
          simpa using this.symm
        rw [hb1]
        exact hmem

/-- Keys outside `pending/` (the published area among them) survive the
staged-photo move loop. -/
lemma movePhotos_nonpending_preserved (locId cdn bkt : String) (photos : List String)
    (blobs : List String) (urls : List String) (k : String)
    (hk : strStartsWith k "pending/" = false)
    (hmem : k ∈ blobs) :
    k ∈ (photos.foldl (movePhotoStep locId cdn bkt) (blobs, urls)).1 := by
  induction photos generalizing blobs urls with
  | nil => simpa using hmem
  | cons p ps ih =>
      simp only [List.foldl_cons]
      rcases hstep : movePhotoStep locId cdn bkt (blobs, urls) p with ⟨blobs1, urls1⟩
      apply ih
      simp only [movePhotoStep] at hstep
      split at hstep
      · rename_i hcond
        split at hstep
        · have hb1 : blobs1 = (blobs.filter (fun b => b ≠ p)) ++
              (if ("approved/" ++ locId ++ "/" ++ lastComponent p) ∈
                  blobs.filter (fun b => b ≠ p) then []
               else ["approved/" ++ locId ++ "/" ++ lastComponent p]) := by
            have := congrArg Prod.fst hstep
            simpa using this.symm
          have hkp : k ≠ p := by
            intro he
            rw [he] at hk
            rw [Bool.and_eq_true] at hcond
            rw [hk] at hcond
            exact Bool.false_ne_true hcond.2
          rw [hb1]
          exact List.mem_append.mpr (Or.inl (List.mem_filter.mpr ⟨hmem, by simp [hkp]⟩))
        · have hb1 : blobs1 = blobs := by
            have := congrArg Prod.fst hstep
            simpa using this.symm
          rw [hb1]
          exact hmem
      · have hb1 : blobs1 = blobs := by
          have := congrArg Prod.fst hstep
          simpa using this.symm
        rw [hb1]
        exact hmem

/-- Every key present after the staged-photo move loop was either present
before or is the published (`approved/{locId}/...`) copy of a staged photo. -/
lemma movePhotos_no_foreign_keys (locId cdn bkt : String) (photos : List String)
    (blobs : List String) (urls : List String) (k : String)
    (hmem : k ∈ (photos.foldl (movePhotoStep locId cdn bkt) (blobs, urls)).1) :
    k ∈ blobs ∨ ∃ p ∈ photos, k = "approved/" ++ locId ++ "/" ++ lastComponent p := by
  induction photos generalizing blobs urls with
  | nil => exact Or.inl (by simpa using hmem)
  | cons p ps ih =>
      simp only [List.foldl_cons] at hmem
      rcases hstep : movePhotoStep locId cdn bkt (blobs, urls) p with ⟨blobs1, urls1⟩
      rw [hstep] at hmem
      rcases ih blobs1 urls1 hmem with h1 | ⟨q, hq, hkq⟩
      · simp only [movePhotoStep] at hstep
        split at hstep
        · split at hstep
          · have hb1 : blobs1 = (blobs.filter (fun b => b ≠ p)) ++
                (if ("approved/" ++ locId ++ "/" ++ lastComponent p) ∈
                    blobs.filter (fun b => b ≠ p) then []
                 else ["approved/" ++ locId ++ "/" ++ lastComponent p]) := by
              have := congrArg Prod.fst hstep
              simpa using this.symm
            rw [hb1] at h1
            rcases List.mem_append.mp h1 with h2 | h3
            · exact Or.inl (List.mem_filter.mp h2).1
            · split at h3
              · simp at h3
              · simp only [List.mem_singleton] at h3
                exact Or.inr ⟨p, by simp, h3⟩
          · have hb1 : blobs1 = blobs := by
              have := congrArg Prod.fst hstep
              simpa using this.symm
            rw [hb1] at h1
            exact Or.inl h1
        · have hb1 : blobs1 = blobs := by
            have := congrArg Prod.fst hstep
            simpa using this.symm
          rw [hb1] at h1
          exact Or.inl h1
      · exact Or.inr ⟨q, by simp [hq], hkq⟩

/-- A staged photo that is present in the bucket is removed from `pending/`
and its published copy is present after the move loop. -/
lemma movePhotos_moves_staged (locId cdn bkt : String) (photos : List String)
    (blobs : List String) (urls : List String) (k : String)
    (hk : k ∈ photos)
    (hsw : strStartsWith k "pending/" = true)
    (hmem : k ∈ blobs) :
    k ∉ (photos.foldl (movePhotoStep locId cdn bkt) (blobs, urls)).1 ∧
    ("approved/" ++ locId ++ "/" ++ lastComponent k)
      ∈ (photos.foldl (movePhotoStep locId cdn bkt) (blobs, urls)).1 := by
  induction photos generalizing blobs urls with
  | nil => simp at hk
  | cons p ps ih =>
      simp only [List.foldl_cons]
      by_cases hkp : k = p
      · subst hkp
        have hke : k ≠ "" := by
          intro he
          rw [he, strStartsWith_nil "pending/" (by decide)] at hsw
          exact Bool.false_ne_true hsw
        have hcond : (decide ¬(k = "") && strStartsWith k "pending/") = true := by
          simp [hke, hsw]
        have hstep : movePhotoStep locId cdn bkt (blobs, urls) k
            = ((blobs.filter (fun b => b ≠ k)) ++
                (if ("approved/" ++ locId ++ "/" ++ lastComponent k) ∈
                    blobs.filter (fun b => b ≠ k) then []
                 else ["approved/" ++ locId ++ "/" ++ lastComponent k]),
               urls ++ [approvedPhotoUrl cdn bkt locId (lastComponent k)]) := by
          simp only [movePhotoStep, hke, hsw, hmem]
          simp [hke, hsw, hmem]
        rw [hstep]
        constructor
        · apply movePhotos_pending_not_added locId cdn bkt ps _ _ k hsw
          intro hin
          rcases List.mem_append.mp hin with h1 | h2
          · have h2 := (List.mem_filter.mp h1).2
            simp at h2
          · split at h2
            · simp at h2
            · simp only [List.mem_singleton] at h2
              rw [h2, approvedKey_not_pending] at hsw
              exact Bool.false_ne_true hsw
        · apply movePhotos_nonpending_preserved locId cdn bkt ps _ _ _
            (approvedKey_not_pending locId (lastComponent k))
          by_cases hap : ("approved/" ++ locId ++ "/" ++ lastComponent k) ∈
              blobs.filter (fun b => b ≠ k)
          · exact List.mem_append.mpr (Or.inl hap)
          · refine List.mem_append.mpr (Or.inr ?_)
            rw [if_neg hap]
            simp
      · have hk' : k ∈ ps := by
          rcases List.mem_cons.mp hk with h | h
          · exact absurd h hkp
          · exact h
        rcases hstep : movePhotoStep locId cdn bkt (blobs, urls) p with ⟨blobs1, urls1⟩
        apply ih blobs1 urls1 hk'
        simp only [movePhotoStep] at hstep
        split at hstep
        · split at hstep
          · have hb1 : blobs1 = (blobs.filter (fun b => b ≠ p)) ++
                (if ("approved/" ++ locId ++ "/" ++ lastComponent p) ∈
                    blobs.filter (fun b => b ≠ p) then []
                 else ["approved/" ++ locId ++ "/" ++ lastComponent p]) := by
              have := congrArg Prod.fst hstep
              simpa using this.symm
            rw [hb1]
            exact List.mem_append.mpr
              (Or.inl (List.mem_filter.mpr ⟨hmem, by simp [hkp]⟩))
          · have hb1 : blobs1 = blobs := by
              have := congrArg Prod.fst hstep
              simpa using this.symm
            rw [hb1]
            exact hmem
        · have hb1 : blobs1 = blobs := by
            have := congrArg Prod.fst hstep
            simpa using this.symm
          rw [hb1]
          exact hmem

/-- C4 counterexample: approving a photo_update Submission whose target
Location already has a photo succeeds (the zero-photos requirement is not
checked at approval time), and the target's decorations are replaced by the
Submission's detectedTags instead of being merged with the existing tag set
(the §4.4 merge of these two tags would keep both). -/
theorem photo_update_approval_counterexample :
    (approveSuggestion
        { suggestions := [{ id := "s7", type := "photo_update", status := "pending",
                            targetLocationId := "L7", photos := ["pending/p1.jpg"],
                            detectedTags := ["inflatable snowmen"] }],
          locations := [{ id := "L7", address := "5 Oak St", photos := ["existing.jpg"],
                          decorations := ["candy canes"], status := "active" }],
          blobs := ["pending/p1.jpg"] }
        "s7" "admin" "t7" "LNEW" "" "bkt" "").2.statusCode = 200 ∧
    (approveSuggestion
        { suggestions := [{ id := "s7", type := "photo_update", status := "pending",
                            targetLocationId := "L7", photos := ["pending/p1.jpg"],
                            detectedTags := ["inflatable snowmen"] }],
          locations := [{ id := "L7", address := "5 Oak St", photos := ["existing.jpg"],
                          decorations := ["candy canes"], status := "active" }],
          blobs := ["pending/p1.jpg"] }
        "s7" "admin" "t7" "LNEW" "" "bkt" "").2.success = true ∧
    ({ id := "L7", address := "5 Oak St", photos := ["existing.jpg"],
       decorations := ["candy canes"], status := "active" } : Location).photos ≠ [] ∧
    (locGet (approveSuggestion
        { suggestions := [{ id := "s7", type := "photo_update", status := "pending",
                            targetLocationId := "L7", photos := ["pending/p1.jpg"],
                            detectedTags := ["inflatable snowmen"] }],
          locations := [{ id := "L7", address := "5 Oak St", photos := ["existing.jpg"],
                          decorations := ["candy canes"], status := "active" }],
          blobs := ["pending/p1.jpg"] }
        "s7" "admin" "t7" "LNEW" "" "bkt" "").1.locations "L7").map Location.decorations
      = some ["inflatable snowmen"] ∧
    mergeTagCap ["candy canes", "inflatable snowmen"]
      = ["candy canes", "inflatable snowmen"] := by
  refine ⟨rfl, rfl, by decide, rfl, rfl⟩

/-- C4 (amended): approving a pending photo_update Submission requires only
that the target Location exists (the zero-photos condition is enforced at
submission time, not re-checked at approval); on approval the staged photos
are moved from `pending/` into the target's published area
(`approved/{targetId}/...`), the target's photo list and decorations are
REPLACED by the Submission's photo URLs and detectedTags (no merge with the
existing tag set; empty detectedTags leave decorations alone), every other
Location is untouched and no new Location is created, and the Submission is
stamped approved. -/
theorem photo_update_approval_behavior :
    ∀ (st : ModState) (sid aid now nlid cdn bkt un : String)
      (sug : Suggestion) (loc : Location),
      sid ≠ "" →
      sgGet st.suggestions sid = some sug →
      sug.status = "pending" →
      sug.type = "photo_update" →
      sug.targetLocationId ≠ "" →
      locGet st.locations sug.targetLocationId = some loc →
      (approveSuggestion st sid aid now nlid cdn bkt un).2
          = { statusCode := 200, success := true, message := "Photo update approved",
              locationId := some sug.targetLocationId } ∧
      locGet (approveSuggestion st sid aid now nlid cdn bkt un).1.locations
          sug.targetLocationId
        = some { loc with
                 photos := (movePhotos sug.targetLocationId cdn bkt st.blobs sug.photos).2,
                 updatedAt := now,
                 decorations := if sug.detectedTags ≠ [] then sug.detectedTags
                                else loc.decorations,
                 aiDescription := if sug.aiDescription ≠ "" then sug.aiDescription
                                  else loc.aiDescription,
                 displayQuality := if sug.displayQuality ≠ "" then sug.displayQuality
                                   else loc.displayQuality,
                 photoSubmittedBy := if sug.submittedBy ≠ "" then sug.submittedBy
                                     else loc.photoSubmittedBy } ∧
      (∀ id, id ≠ sug.targetLocationId →
          locGet (approveSuggestion st sid aid now nlid cdn bkt un).1.locations id
            = locGet st.locations id) ∧
      (∀ k, k ∈ sug.photos → strStartsWith k "pending/" = true → k ∈ st.blobs →
          k ∉ (approveSuggestion st sid aid now nlid cdn bkt un).1.blobs ∧
          ("approved/" ++ sug.targetLocationId ++ "/" ++ lastComponent k)
            ∈ (approveSuggestion st sid aid now nlid cdn bkt un).1.blobs) ∧
      (∀ k, k ∈ st.blobs → strStartsWith k "pending/" = false →
          k ∈ (approveSuggestion st sid aid now nlid cdn bkt un).1.blobs) ∧
      sgGet (approveSuggestion st sid aid now nlid cdn bkt un).1.suggestions sid
          = some { sug with
                     status := "approved", reviewedAt := now,
                     reviewedBy := aid } := by
  intro st sid aid now nlid cdn bkt un sug loc hne hget hstat htype htgt hloc
  have hid : sug.id = sid := by
    have h := List.find?_some hget
    simpa using h
  have hred : approveSuggestion st sid aid now nlid cdn bkt un
      = ({ suggestions := sgModify st.suggestions sug.id (fun s =>
             { s with status := "approved", reviewedAt := now, reviewedBy := aid }),
           locations := locModify st.locations sug.targetLocationId (fun l =>
             { l with
               photos := (movePhotos sug.targetLocationId cdn bkt st.blobs sug.photos).2,
               updatedAt := now,
               decorations := if sug.detectedTags ≠ [] then sug.detectedTags
                              else l.decorations,
               aiDescription := if sug.aiDescription ≠ "" then sug.aiDescription
                                else l.aiDescription,
               displayQuality := if sug.displayQuality ≠ "" then sug.displayQuality
                                 else l.displayQuality,
               photoSubmittedBy := if sug.submittedBy ≠ "" then sug.submittedBy
                                   else l.photoSubmittedBy }),
           blobs := (movePhotos sug.targetLocationId cdn bkt st.blobs sug.photos).1 },
         { statusCode := 200, success := true, message := "Photo update approved",
           locationId := some sug.targetLocationId }) := by
    simp [approveSuggestion, handlePhotoUpdateApproval, hne, hget, hstat, htype, htgt,
      hloc]
  refine ⟨by rw [hred], ?_, ?_, ?_, ?_, ?_⟩
  · rw [hred]
    show locGet (locModify st.locations sug.targetLocationId _) sug.targetLocationId = _
    rw [locGet_locModify st.locations sug.targetLocationId
        (fun l =>
          { l with
            photos := (movePhotos sug.targetLocationId cdn bkt st.blobs sug.photos).2,
            updatedAt := now,
            decorations := if sug.detectedTags ≠ [] then sug.detectedTags
                           else l.decorations,
            aiDescription := if sug.aiDescription ≠ "" then sug.aiDescription
                             else l.aiDescription,
            displayQuality := if sug.displayQuality ≠ "" then sug.displayQuality
                              else l.displayQuality,
            photoSubmittedBy := if sug.submittedBy ≠ "" then sug.submittedBy
                                else l.photoSubmittedBy })
        (fun l => rfl), hloc]
    rfl
  · intro id hidne
    rw [hred]
    show locGet (locModify st.locations sug.targetLocationId _) id = _
    rw [locGet_locModify_ne st.locations sug.targetLocationId id
        (fun l =>
          { l with
            photos := (movePhotos sug.targetLocationId cdn bkt st.blobs sug.photos).2,
            updatedAt := now,
            decorations := if sug.detectedTags ≠ [] then sug.detectedTags
                           else l.decorations,
            aiDescription := if sug.aiDescription ≠ "" then sug.aiDescription
                             else l.aiDescription,
            displayQuality := if sug.displayQuality ≠ "" then sug.displayQuality
                              else l.displayQuality,
            photoSubmittedBy := if sug.submittedBy ≠ "" then sug.submittedBy
                                else l.photoSubmittedBy })
        (fun l => rfl) hidne]
  · intro k hk hsw hmem
    rw [hred]
    exact movePhotos_moves_staged sug.targetLocationId cdn bkt sug.photos st.blobs []
      k hk hsw hmem
  · intro k hmem hsw
    rw [hred]
    exact movePhotos_nonpending_preserved sug.targetLocationId cdn bkt sug.photos
      st.blobs [] k hsw hmem
  · rw [hred]
    show sgGet (sgModify st.suggestions sug.id _) sid = _
    rw [hid, sgGet_sgModify st.suggestions sid
        (fun s => { s with status := "approved", reviewedAt := now, reviewedBy := aid })
        (fun s => rfl), hget]
    simp [hid]

/-- Witness for `photo_update_approval_behavior` at the counterexample state. -/
theorem photo_update_approval_behavior_witness :
    (approveSuggestion
        { suggestions := [{ id := "s7", type := "photo_update", status := "pending",
                            targetLocationId := "L7", photos := ["pending/p1.jpg"],
                            detectedTags := ["inflatable snowmen"] }],
          locations := [{ id := "L7", address := "5 Oak St", photos := ["existing.jpg"],
                          decorations := ["candy canes"], status := "active" }],
          blobs := ["pending/p1.jpg"] }
        "s7" "admin" "t7" "LNEW" "" "bkt" "").2
      = { statusCode := 200, success := true, message := "Photo update approved",
          locationId := some ({ id := "s7", type := "photo_update", status := "pending",
                                targetLocationId := "L7", photos := ["pending/p1.jpg"],
                                detectedTags := ["inflatable snowmen"] } :
                              Suggestion).targetLocationId } :=
  (photo_update_approval_behavior
    { suggestions := [{ id := "s7", type := "photo_update", status := "pending",
                        targetLocationId := "L7", photos := ["pending/p1.jpg"],
                        detectedTags := ["inflatable snowmen"] }],
      locations := [{ id := "L7", address := "5 Oak St", photos := ["existing.jpg"],
                      decorations := ["candy canes"], status := "active" }],
      blobs := ["pending/p1.jpg"] }
    "s7" "admin" "t7" "LNEW" "" "bkt" ""
    { id := "s7", type := "photo_update", status := "pending",
      targetLocationId := "L7", photos := ["pending/p1.jpg"],
      detectedTags := ["inflatable snowmen"] }
    { id := "L7", address := "5 Oak St", photos := ["existing.jpg"],
      decorations := ["candy canes"], status := "active" }
    (by decide) (by rfl) (by decide) (by decide) (by decide) (by rfl)).1

/-- C5 counterexample: a successful favorite on a Location creates the
EngagementRecord and reports success (201, favorited), but increments no
counter on the Location — the stored Location item is bit-for-bit unchanged. -/
theorem favorite_no_counter_increment_counterexample :
    (toggleFavorite
        { locations := [{ id := "L3", status := "active", likeCount := 4,
                          saveCount := 5, reportCount := 1, feedbackCount := 2,
                          viewCount := 9 }],
          feedback := [] } "u9" "L3" "t9").2
      = { statusCode := 201, success := true, favorited := some true,
          message := "Added to favorites!" } ∧
    (toggleFavorite
        { locations := [{ id := "L3", status := "active", likeCount := 4,
                          saveCount := 5, reportCount := 1, feedbackCount := 2,
                          viewCount := 9 }],
          feedback := [] } "u9" "L3" "t9").1.locations
      = [{ id := "L3", status := "active", likeCount := 4, saveCount := 5,
           reportCount := 1, feedbackCount := 2, viewCount := 9 }] ∧
    (toggleFavorite
        { locations := [{ id := "L3", status := "active", likeCount := 4,
                          saveCount := 5, reportCount := 1, feedbackCount := 2,
                          viewCount := 9 }],
          feedback := [] } "u9" "L3" "t9").1.feedback
      = [{ id := "favorite-u9-L3", locationId := "L3", userId := "u9",
           type := "favorite", createdAt := "t9" }] := by
  refine ⟨rfl, rfl, rfl⟩

/-- C5 (amended): a successful react that creates a new EngagementRecord
increments the matching counter by exactly one for a like on a Location
(likeCount), a like on a Route (likeCount) and a save on a Route (saveCount)
— the stored entity is the old one with only that counter advanced — while a
favorite on a Location creates the record WITHOUT touching the Locations
table at all. -/
theorem react_counter_increments_amended :
    (∀ (st : FbState) (uid lid now fresh : String) (loc : Location),
        lid ≠ "" →
        locGet st.locations lid = some loc →
        fbGetUserFeedback st.feedback lid uid "like" = none →
        (st.feedback.any (fun g =>
            g.id == ("like-" ++ uid ++ "-" ++ lid) && g.locationId == lid)) = false →
        (submitFeedback st uid lid "like" none now fresh).2.statusCode = 201 ∧
        (submitFeedback st uid lid "like" none now fresh).2.liked = some true ∧
        locGet (submitFeedback st uid lid "like" none now fresh).1.locations lid
          = some { loc with likeCount := loc.likeCount + 1 }) ∧
    (∀ (st : RtState) (uid rid now : String) (route : Route),
        rid ≠ "" →
        rtGet st.routes rid = some route →
        route.status = "active" →
        rfGetUserFeedback st.feedback rid uid "like" = none →
        (st.feedback.any (fun g =>
            g.id == ("like-" ++ uid ++ "-" ++ rid) && g.routeId == rid)) = false →
        (routeFeedbackToggle st uid rid "like" now).2.statusCode = 201 ∧
        (routeFeedbackToggle st uid rid "like" now).2.liked = some true ∧
        rtGet (routeFeedbackToggle st uid rid "like" now).1.routes rid
          = some { route with likeCount := route.likeCount + 1 }) ∧
    (∀ (st : RtState) (uid rid now : String) (route : Route),
        rid ≠ "" →
        rtGet st.routes rid = some route →
        route.status = "active" →
        rfGetUserFeedback st.feedback rid uid "save" = none →
        (st.feedback.any (fun g =>
            g.id == ("save-" ++ uid ++ "-" ++ rid) && g.routeId == rid)) = false →
        (routeFeedbackToggle st uid rid "save" now).2.statusCode = 201 ∧
        (routeFeedbackToggle st uid rid "save" now).2.saved = some true ∧
        rtGet (routeFeedbackToggle st uid rid "save" now).1.routes rid
          = some { route with saveCount := route.saveCount + 1 }) ∧
    (∀ (st : FbState) (uid lid now : String) (loc : Location),
        lid ≠ "" →
        locGet st.locations lid = some loc →
        fbGetUserFeedback st.feedback lid uid "favorite" = none →
        (st.feedback.any (fun g =>
            g.id == ("favorite-" ++ uid ++ "-" ++ lid) && g.locationId == lid)) = false →
        (toggleFavorite st uid lid now).2.statusCode = 201 ∧
        (toggleFavorite st uid lid now).2.favorited = some true ∧
        (toggleFavorite st uid lid now).1.locations = st.locations ∧
        (toggleFavorite st uid lid now).1.feedback
          = st.feedback ++ [{ id := "favorite-" ++ uid ++ "-" ++ lid,
                              locationId := lid, userId := uid,
                              type := "favorite", createdAt := now }]) := by
  refine ⟨?_, ?_, ?_, ?_⟩
  · intro st uid lid now fresh loc hlid hloc hnone hany
    have hred : submitFeedback st uid lid "like" none now fresh
        = ({ locations := locIncLikeCount st.locations lid,
             feedback := st.feedback ++
               [{ id := "like-" ++ uid ++ "-" ++ lid, locationId := lid,
                  userId := uid, type := "like", createdAt := now }] },
           { statusCode := 201, success := true, liked := some true,
             dataId := some ("like-" ++ uid ++ "-" ++ lid),
             message := "Location liked!" }) := by
      simp [submitFeedback, hlid, hloc, hnone, fbCreateAtomic, hany]
    refine ⟨by rw [hred], by rw [hred], ?_⟩
    rw [hred]
    show locGet (locModify st.locations lid _) lid = _
    rw [locGet_locModify st.locations lid
        (fun l => { l with likeCount := incCounter l.likeCount }) (fun l => rfl), hloc]
    rfl
  · intro st uid rid now route hrid hroute hstatus hnone hany
    have hred : routeFeedbackToggle st uid rid "like" now
        = ({ routes := rtIncLikeCount st.routes rid,
             feedback := st.feedback ++
               [{ id := "like-" ++ uid ++ "-" ++ rid, routeId := rid,
                  userId := uid, type := "like", createdAt := now }] },
           { statusCode := 201, success := true, liked := some true,
             dataId := some ("like-" ++ uid ++ "-" ++ rid),
             message := "Route liked!" }) := by
      simp [routeFeedbackToggle, routeReactAttempt, hrid, hroute, hstatus, hnone,
        rfCreateAtomic, hany]
    refine ⟨by rw [hred], by rw [hred], ?_⟩
    rw [hred]
    show rtGet (rtModify st.routes rid _) rid = _
    rw [rtGet_rtModify st.routes rid
        (fun r => { r with likeCount := incCounter r.likeCount }) (fun r => rfl), hroute]
    rfl
  · intro st uid rid now route hrid hroute hstatus hnone hany
    have hred : routeFeedbackToggle st uid rid "save" now
        = ({ routes := rtIncSaveCount st.routes rid,
             feedback := st.feedback ++
               [{ id := "save-" ++ uid ++ "-" ++ rid, routeId := rid,
                  userId := uid, type := "save", createdAt := now }] },
           { statusCode := 201, success := true, saved := some true,
             dataId := some ("save-" ++ uid ++ "-" ++ rid),
             message := "Route saved!" }) := by
      simp [routeFeedbackToggle, routeReactAttempt, hrid, hroute, hstatus, hnone,
        rfCreateAtomic, hany]
    refine ⟨by rw [hred], by rw [hred], ?_⟩
    rw [hred]
    show rtGet (rtModify st.routes rid _) rid = _
    rw [rtGet_rtModify st.routes rid
        (fun r => { r with saveCount := incCounter r.saveCount }) (fun r => rfl), hroute]
    rfl
  · intro st uid lid now loc hlid hloc hnone hany
    have hred : toggleFavorite st uid lid now
        = ({ st with feedback := st.feedback ++
               [{ id := "favorite-" ++ uid ++ "-" ++ lid, locationId := lid,
                  userId := uid, type := "favorite", createdAt := now }] },
           { statusCode := 201, success := true, favorited := some true,
             message := "Added to favorites!" }) := by
      simp [toggleFavorite, hlid, hloc, hnone, fbCreateAtomic, hany]
    exact ⟨by rw [hred], by rw [hred], by rw [hred], by rw [hred]⟩

/-- Witness for `react_counter_increments_amended` at concrete states. -/
theorem react_counter_increments_amended_witness :
    (locGet [{ id := "L3", status := "active", likeCount := 4 }] "L3"
        = some { id := "L3", status := "active", likeCount := 4 } ∧
      (submitFeedback
          { locations := [{ id := "L3", status := "active", likeCount := 4 }],
            feedback := [] } "u9" "L3" "like" none "t" "f").2.statusCode = 201) ∧
    (rtGet [{ id := "R1", status := "active", likeCount := 7 }] "R1"
        = some { id := "R1", status := "active", likeCount := 7 } ∧
      rtGet (routeFeedbackToggle
          { routes := [{ id := "R1", status := "active", likeCount := 7 }],
            feedback := [] } "u9" "R1" "like" "t").1.routes "R1"
        = some { id := "R1", status := "active", likeCount := 7 + 1 } ∧
      rtGet (routeFeedbackToggle
          { routes := [{ id := "R1", status := "active", saveCount := 2 }],
            feedback := [] } "u9" "R1" "save" "t").1.routes "R1"
        = some { id := "R1", status := "active", saveCount := 2 + 1 }) ∧
    (toggleFavorite
        { locations := [{ id := "L3", status := "active", likeCount := 4 }],
          feedback := [] } "u9" "L3" "t").1.locations
      = [{ id := "L3", status := "active", likeCount := 4 }] := by
  refine ⟨⟨by rfl, ?_⟩, ⟨by rfl, ?_, ?_⟩, ?_⟩
  · exact (react_counter_increments_amended.1
      { locations := [{ id := "L3", status := "active", likeCount := 4 }], feedback := [] }
      "u9" "L3" "t" "f" { id := "L3", status := "active", likeCount := 4 }
      (by decide) (by rfl) (by rfl) (by rfl)).1
  · exact (react_counter_increments_amended.2.1
      { routes := [{ id := "R1", status := "active", likeCount := 7 }], feedback := [] }
      "u9" "R1" "t" { id := "R1", status := "active", likeCount := 7 }
      (by decide) (by rfl) (by decide) (by rfl) (by rfl)).2.2
  · exact (react_counter_increments_amended.2.2.1
      { routes := [{ id := "R1", status := "active", saveCount := 2 }], feedback := [] }
      "u9" "R1" "t" { id := "R1", status := "active", saveCount := 2 }
      (by decide) (by rfl) (by decide) (by rfl) (by rfl)).2.2
  · exact (react_counter_increments_amended.2.2.2
      { locations := [{ id := "L3", status := "active", likeCount := 4 }], feedback := [] }
      "u9" "L3" "t" { id := "L3", status := "active", likeCount := 4 }
      (by decide) (by rfl) (by rfl) (by rfl)).2.2.1

/-- C1: two react create-attempts racing on the same `(type, userId, targetId)`
triple — both running the conditional create of route_feedback.py, for type
like and for type save — leave exactly one EngagementRecord with the
deterministic id and the counter incremented exactly once; the loser of the
race changes nothing and still reports success (HTTP 200) with the reacted
state present. -/
theorem react_race_single_record_and_increment :
    (∀ (st : RtState) (uid rid now1 now2 : String) (route : Route),
      rtGet st.routes rid = some route →
      (∀ g ∈ st.feedback, g.id ≠ ("like-" ++ uid ++ "-" ++ rid)) →
      (routeReactAttempt (routeReactAttempt st uid rid "like" now1).1 uid rid "like" now2).1
        = (routeReactAttempt st uid rid "like" now1).1 ∧
      ((routeReactAttempt (routeReactAttempt st uid rid "like" now1).1 uid rid "like"
          now2).1.feedback.filter
          (fun g => g.id == ("like-" ++ uid ++ "-" ++ rid))).length = 1 ∧
      rtGet (routeReactAttempt (routeReactAttempt st uid rid "like" now1).1 uid rid "like"
          now2).1.routes rid
        = some { route with likeCount := route.likeCount + 1 } ∧
      (routeReactAttempt (routeReactAttempt st uid rid "like" now1).1 uid rid "like"
          now2).2.statusCode = 200 ∧
      (routeReactAttempt (routeReactAttempt st uid rid "like" now1).1 uid rid "like"
          now2).2.success = true ∧
      (routeReactAttempt (routeReactAttempt st uid rid "like" now1).1 uid rid "like"
          now2).2.liked = some true) ∧
    (∀ (st : RtState) (uid rid now1 now2 : String) (route : Route),
      rtGet st.routes rid = some route →
      (∀ g ∈ st.feedback, g.id ≠ ("save-" ++ uid ++ "-" ++ rid)) →
      (routeReactAttempt (routeReactAttempt st uid rid "save" now1).1 uid rid "save" now2).1
        = (routeReactAttempt st uid rid "save" now1).1 ∧
      ((routeReactAttempt (routeReactAttempt st uid rid "save" now1).1 uid rid "save"
          now2).1.feedback.filter
          (fun g => g.id == ("save-" ++ uid ++ "-" ++ rid))).length = 1 ∧
      rtGet (routeReactAttempt (routeReactAttempt st uid rid "save" now1).1 uid rid "save"
          now2).1.routes rid
        = some { route with saveCount := route.saveCount + 1 } ∧
      (routeReactAttempt (routeReactAttempt st uid rid "save" now1).1 uid rid "save"
          now2).2.statusCode = 200 ∧
      (routeReactAttempt (routeReactAttempt st uid rid "save" now1).1 uid rid "save"
          now2).2.success = true ∧
      (routeReactAttempt (routeReactAttempt st uid rid "save" now1).1 uid rid "save"
          now2).2.saved = some true) := by
  constructor
  · intro st uid rid now1 now2 route hroute hfresh
    have hany : st.feedback.any (fun g =>
        g.id == ("like-" ++ uid ++ "-" ++ rid) && g.routeId == rid) = false := by
      rw [List.any_eq_false]
      intro g hg
      simp [hfresh g hg]
    have hfil : st.feedback.filter (fun g =>
        g.id == ("like-" ++ uid ++ "-" ++ rid)) = [] := by
      rw [List.filter_eq_nil_iff]
      intro g hg
      simp [hfresh g hg]
    have hred1 : routeReactAttempt st uid rid "like" now1
        = ({ routes := rtIncLikeCount st.routes rid,
             feedback := st.feedback ++
               [{ id := "like-" ++ uid ++ "-" ++ rid, routeId := rid,
                  userId := uid, type := "like", createdAt := now1 }] },
           { statusCode := 201, success := true, liked := some true,
             dataId := some ("like-" ++ uid ++ "-" ++ rid),
             message := "Route liked!" }) := by
      simp [routeReactAttempt, rfCreateAtomic, hany]
    have hany2 : ((st.feedback ++
        [({ id := "like-" ++ uid ++ "-" ++ rid, routeId := rid,
            userId := uid, type := "like", createdAt := now1 } : RouteFeedback)]).any (fun g =>
          g.id == ("like-" ++ uid ++ "-" ++ rid) && g.routeId == rid)) = true := by
      simp [List.any_append]
    have hred2 : routeReactAttempt
        { routes := rtIncLikeCount st.routes rid,
          feedback := st.feedback ++
            [{ id := "like-" ++ uid ++ "-" ++ rid, routeId := rid,
               userId := uid, type := "like", createdAt := now1 }] } uid rid "like" now2
        = ({ routes := rtIncLikeCount st.routes rid,
             feedback := st.feedback ++
               [{ id := "like-" ++ uid ++ "-" ++ rid, routeId := rid,
                  userId := uid, type := "like", createdAt := now1 }] },
           { statusCode := 200, success := true, liked := some true,
             dataId := some (((rfGetUserFeedback (st.feedback ++
                 [{ id := "like-" ++ uid ++ "-" ++ rid, routeId := rid,
                    userId := uid, type := "like", createdAt := now1 }]) rid uid
                 "like").map (fun g => g.id)).getD
                 ("like-" ++ uid ++ "-" ++ rid)),
             message := "Route liked!" }) := by
      simp [routeReactAttempt, rfCreateAtomic, hany2]
    rw [hred1, hred2]
    refine ⟨rfl, ?_, ?_, rfl, rfl, rfl⟩
    · simp [List.filter_append, hfil]
    · show rtGet (rtModify st.routes rid _) rid = _
      rw [rtGet_rtModify st.routes rid
          (fun r => { r with likeCount := incCounter r.likeCount }) (fun r => rfl),
        hroute]
      rfl
  · intro st uid rid now1 now2 route hroute hfresh
    have hany : st.feedback.any (fun g =>
        g.id == ("save-" ++ uid ++ "-" ++ rid) && g.routeId == rid) = false := by
      rw [List.any_eq_false]
      intro g hg
      simp [hfresh g hg]
    have hfil : st.feedback.filter (fun g =>
        g.id == ("save-" ++ uid ++ "-" ++ rid)) = [] := by
      rw [List.filter_eq_nil_iff]
      intro g hg
      simp [hfresh g hg]
    have hred1 : routeReactAttempt st uid rid "save" now1
        = ({ routes := rtIncSaveCount st.routes rid,
             feedback := st.feedback ++
               [{ id := "save-" ++ uid ++ "-" ++ rid, routeId := rid,
                  userId := uid, type := "save", createdAt := now1 }] },
           { statusCode := 201, success := true, saved := some true,
             dataId := some ("save-" ++ uid ++ "-" ++ rid),
             message := "Route saved!" }) := by
      simp [routeReactAttempt, rfCreateAtomic, hany]
    have hany2 : ((st.feedback ++
        [({ id := "save-" ++ uid ++ "-" ++ rid, routeId := rid,
            userId := uid, type := "save", createdAt := now1 } : RouteFeedback)]).any (fun g =>
          g.id == ("save-" ++ uid ++ "-" ++ rid) && g.routeId == rid)) = true := by
      simp [List.any_append]
    have hred2 : routeReactAttempt
        { routes := rtIncSaveCount st.routes rid,
          feedback := st.feedback ++
            [{ id := "save-" ++ uid ++ "-" ++ rid, routeId := rid,
               userId := uid, type := "save", createdAt := now1 }] } uid rid "save" now2
        = ({ routes := rtIncSaveCount st.routes rid,
             feedback := st.feedback ++
               [{ id := "save-" ++ uid ++ "-" ++ rid, routeId := rid,
                  userId := uid, type := "save", createdAt := now1 }] },
           { statusCode := 200, success := true, saved := some true,
             dataId := some (((rfGetUserFeedback (st.feedback ++
                 [{ id := "save-" ++ uid ++ "-" ++ rid, routeId := rid,
                    userId := uid, type := "save", createdAt := now1 }]) rid uid
                 "save").map (fun g => g.id)).getD
                 ("save-" ++ uid ++ "-" ++ rid)),
             message := "Route saved!" }) := by
      simp [routeReactAttempt, rfCreateAtomic, hany2]
    rw [hred1, hred2]
    refine ⟨rfl, ?_, ?_, rfl, rfl, rfl⟩
    · simp [List.filter_append, hfil]
    · show rtGet (rtModify st.routes rid _) rid = _
      rw [rtGet_rtModify st.routes rid
          (fun r => { r with saveCount := incCounter r.saveCount }) (fun r => rfl),
        hroute]
      rfl

/-- Witness for `react_race_single_record_and_increment`: two like attempts on
an empty feedback table. -/
theorem react_race_single_record_and_increment_witness :
    rtGet [{ id := "R1", status := "active", likeCount := 3 }] "R1"
      = some { id := "R1", status := "active", likeCount := 3 } ∧
    ((routeReactAttempt (routeReactAttempt
        { routes := [{ id := "R1", status := "active", likeCount := 3 }],
          feedback := [] } "u1" "R1" "like" "t1").1 "u1" "R1" "like" "t2").1.feedback.filter
      (fun g => g.id == ("like-" ++ "u1" ++ "-" ++ "R1"))).length = 1 :=
  ⟨by rfl,
   (react_race_single_record_and_increment.1
     { routes := [{ id := "R1", status := "active", likeCount := 3 }], feedback := [] }
     "u1" "R1" "t1" "t2" { id := "R1", status := "active", likeCount := 3 }
     (by rfl) (by intro g hg; simp at hg)).2.1⟩

/-- C10: from a consistent initial state (route present and active, a
non-negative counter, no EngagementRecord of the user on the route), running
the route-feedback toggle three times — react, unReact, react — leaves the
like counter at its value after the first react, namely the initial value
plus one. -/
theorem react_unreact_react_counter_roundtrip :
    ∀ (st : RtState) (uid rid now1 now2 now3 : String) (route : Route),
      rid ≠ "" →
      rtGet st.routes rid = some route →
      route.status = "active" →
      0 ≤ route.likeCount →
      (∀ g ∈ st.feedback, g.id ≠ ("like-" ++ uid ++ "-" ++ rid)) →
      (∀ g ∈ st.feedback, ¬(g.userId = uid ∧ g.routeId = rid ∧ g.type = "like")) →
      (rtGet (routeFeedbackToggle (routeFeedbackToggle
            (routeFeedbackToggle st uid rid "like" now1).1
            uid rid "like" now2).1 uid rid "like" now3).1.routes rid).map Route.likeCount
        = (rtGet (routeFeedbackToggle st uid rid "like" now1).1.routes rid).map
            Route.likeCount ∧
      (rtGet (routeFeedbackToggle st uid rid "like" now1).1.routes rid).map
          Route.likeCount = some (route.likeCount + 1) := by
  intro st uid rid now1 now2 now3 route hrid hroute hstatus h0 hfresh huser
  have hnone1 : rfGetUserFeedback st.feedback rid uid "like" = none := by
    apply find?_eq_none_of_all
    intro g hg
    cases h : (g.userId == uid && g.routeId == rid && g.type == "like") with
    | false => rfl
    | true =>
        exfalso
        apply huser g hg
        simp only [Bool.and_eq_true, beq_iff_eq] at h
        exact ⟨h.1.1, h.1.2, h.2⟩
  have hany1 : st.feedback.any (fun g =>
      g.id == ("like-" ++ uid ++ "-" ++ rid) && g.routeId == rid) = false := by
    rw [List.any_eq_false]
    intro g hg
    simp [hfresh g hg]
  have e1 : (routeFeedbackToggle st uid rid "like" now1).1
      = { routes := rtIncLikeCount st.routes rid,
          feedback := st.feedback ++
            [{ id := "like-" ++ uid ++ "-" ++ rid, routeId := rid,
               userId := uid, type := "like", createdAt := now1 }] } := by
    simp [routeFeedbackToggle, routeReactAttempt, rfCreateAtomic, hrid, hroute,
      hstatus, hnone1, hany1]
  have hgetS1 : rtGet (rtIncLikeCount st.routes rid) rid
      = some { route with likeCount := incCounter route.likeCount } := by
    show rtGet (rtModify st.routes rid _) rid = _
    rw [rtGet_rtModify st.routes rid
        (fun r => { r with likeCount := incCounter r.likeCount }) (fun r => rfl), hroute]
    rfl
  have hsome2 : rfGetUserFeedback (st.feedback ++
      [{ id := "like-" ++ uid ++ "-" ++ rid, routeId := rid,
         userId := uid, type := "like", createdAt := now1 }]) rid uid "like"
      = some { id := "like-" ++ uid ++ "-" ++ rid, routeId := rid,
               userId := uid, type := "like", createdAt := now1 } := by
    show List.find? _ _ = _
    rw [find?_append_of_none _ _ _ hnone1]
    simp [List.find?_cons]
  have hdel : rfDelete (st.feedback ++
      [{ id := "like-" ++ uid ++ "-" ++ rid, routeId := rid,
         userId := uid, type := "like", createdAt := now1 }])
      ("like-" ++ uid ++ "-" ++ rid) rid = st.feedback := by
    rw [rfDelete, List.filter_append]
    have h1 : st.feedback.filter (fun g =>
        !(g.id == ("like-" ++ uid ++ "-" ++ rid) && g.routeId == rid)) = st.feedback := by
      apply List.filter_eq_self.mpr
      intro g hg
      simp [hfresh g hg]
    have h2 : ([({ id := "like-" ++ uid ++ "-" ++ rid, routeId := rid,
                   userId := uid, type := "like",
                   createdAt := now1 } : RouteFeedback)]).filter
        (fun g => !(g.id == ("like-" ++ uid ++ "-" ++ rid) && g.routeId == rid)) = [] := by
      simp
    rw [h1, h2, List.append_nil]
  have e2 : (routeFeedbackToggle
      { routes := rtIncLikeCount st.routes rid,
        feedback := st.feedback ++
          [{ id := "like-" ++ uid ++ "-" ++ rid, routeId := rid,
             userId := uid, type := "like", createdAt := now1 }] } uid rid "like" now2).1
      = { routes := rtDecLikeCount (rtIncLikeCount st.routes rid) rid,
          feedback := st.feedback } := by
    simp [routeFeedbackToggle, hrid, hgetS1, hstatus, hsome2, hdel]
  have hlc : decCounter (incCounter route.likeCount) = route.likeCount := by
    simp only [decCounter, incCounter]
    split
    · omega
    · omega
  have hgetS2 : rtGet (rtDecLikeCount (rtIncLikeCount st.routes rid) rid) rid
      = some route := by
    show rtGet (rtModify (rtModify st.routes rid _) rid _) rid = _
    rw [rtGet_rtModify (rtModify st.routes rid
          (fun r => { r with likeCount := incCounter r.likeCount })) rid
        (fun r => { r with likeCount := decCounter r.likeCount }) (fun r => rfl)]
    rw [rtGet_rtModify st.routes rid
        (fun r => { r with likeCount := incCounter r.likeCount }) (fun r => rfl), hroute]
    simp only [Option.map_some']
    simp [hlc]
  have e3 : (routeFeedbackToggle
      { routes := rtDecLikeCount (rtIncLikeCount st.routes rid) rid,
        feedback := st.feedback } uid rid "like" now3).1
      = { routes := rtIncLikeCount (rtDecLikeCount (rtIncLikeCount st.routes rid) rid) rid,
          feedback := st.feedback ++
            [{ id := "like-" ++ uid ++ "-" ++ rid, routeId := rid,
               userId := uid, type := "like", createdAt := now3 }] } := by
    simp [routeFeedbackToggle, routeReactAttempt, rfCreateAtomic, hrid, hgetS2,
      hstatus, hnone1, hany1]
  have hgetS3 : rtGet (rtIncLikeCount
      (rtDecLikeCount (rtIncLikeCount st.routes rid) rid) rid) rid
      = some { route with likeCount := incCounter route.likeCount } := by
    show rtGet (rtModify _ rid _) rid = _
    rw [rtGet_rtModify (rtDecLikeCount (rtIncLikeCount st.routes rid) rid) rid
        (fun r => { r with likeCount := incCounter r.likeCount }) (fun r => rfl), hgetS2]
    rfl
  rw [e1, e2, e3]
  simp [hgetS3, hgetS1, incCounter]

/-- Witness for `react_unreact_react_counter_roundtrip` at a concrete state. -/
theorem react_unreact_react_counter_roundtrip_witness :
    rtGet [{ id := "R2", status := "active", likeCount := 6 }] "R2"
      = some { id := "R2", status := "active", likeCount := 6 } ∧
    (rtGet (routeFeedbackToggle
        { routes := [{ id := "R2", status := "active", likeCount := 6 }],
          feedback := [] } "u2" "R2" "like" "t1").1.routes "R2").map Route.likeCount
      = some (6 + 1) :=
  ⟨by rfl,
   (react_unreact_react_counter_roundtrip
     { routes := [{ id := "R2", status := "active", likeCount := 6 }], feedback := [] }
     "u2" "R2" "t1" "t2" "t3" { id := "R2", status := "active", likeCount := 6 }
     (by decide) (by rfl) (by decide) (by decide)
     (by intro g hg; simp at hg) (by intro g hg; simp at hg)).2⟩

end Rattlers
